import Mathlib

/-!
# Shallow embedding of the XTree construction core (ao/src/render/brep/xtree.cpp)

This file embeds the N = 2 instantiation (`template class XTree<2>`) of the
adaptive quadtree constructor from `src/ao/src/render/brep/xtree.cpp` and
proves/refutes the specification claims about it.

Modelling conventions:
* IEEE doubles are modelled as exact reals (ℝ).  NaN gradients, which the
  source tests with `std::isnan` on the derivative components, are modelled by
  `Option ℝ` components (`none` = NaN) in the evaluator's derivative record.
* The external `Evaluator` is a pure positional oracle: `ival` models
  `eval->eval(lower3, upper3)` (interval evaluation), `val` models staging a
  point with `set`/`setRaw` followed by `values(n)`, and `deriv` models
  `derivs(n)`.  Batched evaluation of a pure oracle is modelled pointwise.
* The out-of-bounds read `ps[j - 1]` that the source performs when the very
  first edge-search candidate evaluates `>= 0` (j = 0) is modelled by `none`
  (undefined behaviour); all total paths return `some`.
* Declarations that embed code living only in headers that are not part of
  `src/` (Region operations, `Interval::isFilled/isEmpty`, the manifold
  tables, `edges()`, the `EIGENVALUE_CUTOFF` value, field defaults) are
  modelled from the spec and carry a doc comment saying so.
-/

namespace XT

/-- A point in the plane (the N = 2 cell space). -/
@[ext] structure V2 where
  x : ℝ
  y : ℝ

/-- A point in evaluator space (always 3-D; cells lift via `region.perp`). -/
@[ext] structure V3 where
  x : ℝ
  y : ℝ
  z : ℝ

/-- Modelled from the spec: `Region<2>` (region.hpp is not under `src/`).
Fields `lower`, `upper` in the plane plus the `perp` lift coordinate
(spec section 3). -/
@[ext] structure Region2 where
  lower : V2
  upper : V2
  perp : ℝ

/-- Modelled from the spec: `volume() = prod (upper - lower)`. -/
noncomputable def Region2.volume (r : Region2) : ℝ :=
  (r.upper.x - r.lower.x) * (r.upper.y - r.lower.y)

/-- `region.lower3()`: the lower corner lifted to 3-D. -/
def Region2.lower3 (r : Region2) : V3 := ⟨r.lower.x, r.lower.y, r.perp⟩

/-- `region.upper3()`: the upper corner lifted to 3-D. -/
def Region2.upper3 (r : Region2) : V3 := ⟨r.upper.x, r.upper.y, r.perp⟩

/-- Lift an in-cell point to evaluator space: `pos << p, region.perp`. -/
def Region2.lift (r : Region2) (p : V2) : V3 := ⟨p.x, p.y, r.perp⟩

/-- Modelled from the spec: `cornerPos(i)` keyed by the corner bitmask,
bit j of i selects upper (1) versus lower (0) along axis j. -/
def Region2.cornerPos (r : Region2) (i : Fin 4) : V2 :=
  ⟨if i.val % 2 = 1 then r.upper.x else r.lower.x,
   if i.val / 2 = 1 then r.upper.y else r.lower.y⟩

/-- Modelled from the spec: `subdivide()` produces the 2^N equal sub-regions,
indexed by the same corner bitmask (bit j selects the upper half along
axis j); `perp` is inherited. -/
noncomputable def Region2.subdiv (r : Region2) (i : Fin 4) : Region2 :=
  let mx := (r.lower.x + r.upper.x) / 2
  let my := (r.lower.y + r.upper.y) / 2
  ⟨⟨if i.val % 2 = 1 then mx else r.lower.x,
    if i.val / 2 = 1 then my else r.lower.y⟩,
   ⟨if i.val % 2 = 1 then r.upper.x else mx,
    if i.val / 2 = 1 then r.upper.y else my⟩,
   r.perp⟩

/-- Result of `eval->derivs(n)` for one staged point: the value `v` and the
gradient components; a `none` component models an IEEE NaN (the only thing
the source ever does with NaN here is `std::isnan`). -/
structure Deriv where
  v : ℝ
  dx : Option ℝ
  dy : Option ℝ
  dz : Option ℝ

/-- The external evaluator interface consumed by the XTree constructor,
modelled as a pure positional oracle (spec section 6). -/
structure Evaluator where
  ival : V3 → V3 → ℝ × ℝ
  val : V3 → ℝ
  deriv : V3 → Deriv

/-- Modelled from the spec: `Interval::isFilled` — the interval lies entirely
at or below zero ("FILLED ≡ interval strictly ≤ 0", spec section 3). -/
def isFilled (i : ℝ × ℝ) : Prop := i.2 ≤ 0

/-- Modelled from the spec: `Interval::isEmpty` — the interval lies strictly
above zero ("EMPTY ≡ interval strictly > 0", spec section 3). -/
def isEmpty (i : ℝ × ℝ) : Prop := 0 < i.1

noncomputable instance (i : ℝ × ℝ) : Decidable (isFilled i) := by
  unfold isFilled; infer_instance

noncomputable instance (i : ℝ × ℝ) : Decidable (isEmpty i) := by
  unfold isEmpty; infer_instance

/-- `Interval::State` restricted to the three values the constructor uses. -/
inductive CellType where
  | EMPTY
  | FILLED
  | AMBIGUOUS
  deriving DecidableEq, Fintype

/-- `XTree<2>::cornerMask()` (xtree.cpp lines 307-319): one bit per FILLED
corner.  Corner states are `Bool` with `true` = `Interval::FILLED`. -/
def cornerMask (cs : Fin 4 → Bool) : ℕ :=
  (if cs 0 then 1 else 0) + (if cs 1 then 2 else 0) +
  (if cs 2 then 4 else 0) + (if cs 3 then 8 else 0)

/-- Modelled from the spec: `cornersAreManifold()` lives in the header, not
under `src/`.  Spec section 4.3: a table lookup on the corner mask, true iff
the sign pattern admits a single-surface interpretation; for N = 2 the only
non-manifold (saddle) patterns are the two diagonal masks 0b0110 and 0b1001. -/
def cornersAreManifold (cs : Fin 4 → Bool) : Bool :=
  cornerMask cs ≠ 6 && cornerMask cs ≠ 9

/-- Modelled from the spec: `edges()` lives in the header, not under `src/`.
Spec section 4.2: the 2N·2^(N-1) = 4 axis-aligned cell edges, as corner
index pairs (bitmask indexing, bit 0 = x, bit 1 = y). -/
def edges2 : List (Fin 4 × Fin 4) := [(0, 1), (2, 3), (0, 2), (1, 3)]

/-- Aggregate type from child cell types (xtree.cpp lines 50-51 and 75-76):
`all_empty`/`all_full` are accumulated over the children's `type` fields on
the subdivide path. -/
def aggType (kt : Fin 4 → CellType) : CellType :=
  if kt 0 = .EMPTY ∧ kt 1 = .EMPTY ∧ kt 2 = .EMPTY ∧ kt 3 = .EMPTY then .EMPTY
  else if kt 0 = .FILLED ∧ kt 1 = .FILLED ∧ kt 2 = .FILLED ∧ kt 3 = .FILLED then .FILLED
  else .AMBIGUOUS

/-- Aggregate type from sampled corner states (xtree.cpp lines 70-76):
on the terminal-sampling path `all_full` and `all_empty` are accumulated
over the corner booleans. -/
def aggTypeCorners (cs : Fin 4 → Bool) : CellType :=
  if cs 0 = false ∧ cs 1 = false ∧ cs 2 = false ∧ cs 3 = false then .EMPTY
  else if cs 0 = true ∧ cs 1 = true ∧ cs 2 = true ∧ cs 3 = true then .FILLED
  else .AMBIGUOUS

/-! ## Edge intersection search (xtree.cpp lines 151-199) -/

/-- The interpolation parameter of edge-search candidate `j` exactly as the
source computes it (xtree.cpp line 173): `double frac = j / (N - 1.0);`
where `N` is the spatial dimension template parameter (not the candidate
count `NUM`). -/
noncomputable def edgeFrac (n : ℕ) (j : ℕ) : ℝ := (j : ℝ) / ((n : ℝ) - 1)

/-- Candidate `j` on the current bracket (xtree.cpp line 174):
`ps[j] = inside * (1 - frac) + outside * frac`, at N = 2. -/
noncomputable def searchCandidate (br : V2 × V2) (j : ℕ) : V2 :=
  ⟨br.1.x * (1 - edgeFrac 2 j) + br.2.x * edgeFrac 2 j,
   br.1.y * (1 - edgeFrac 2 j) + br.2.y * edgeFrac 2 j⟩

/-- Scan for the first index `j` in `[j0, j0 + n)` with `f j >= 0`
(xtree.cpp lines 183-191). -/
noncomputable def firstCrossAux (f : ℕ → ℝ) : ℕ → ℕ → Option ℕ
  | _, 0 => none
  | j, n + 1 => if 0 ≤ f j then some j else firstCrossAux f (j + 1) n

/-- First candidate index with value `>= 0` among the NUM = 16 candidates. -/
noncomputable def firstCross (f : ℕ → ℝ) : Option ℕ := firstCrossAux f 0 16

/-- One iteration of the bracketed search (xtree.cpp lines 167-192): build
the 16 candidates, evaluate them, and move the bracket to the first sign
change.  If no candidate evaluates `>= 0` the bracket is left unchanged
(the loop's `break` never fires).  If the FIRST candidate evaluates `>= 0`
the source reads `ps[j - 1] = ps[-1]`, an out-of-bounds access: that path
is modelled as `none`. -/
noncomputable def searchStep (e : Evaluator) (r : Region2) (br : V2 × V2) :
    Option (V2 × V2) :=
  match firstCross (fun j => e.val (r.lift (searchCandidate br j))) with
  | none => some br
  | some 0 => none
  | some (j + 1) => some (searchCandidate br j, searchCandidate br (j + 1))

/-- ITER = SEARCH_COUNT / _N = 4 sequential iterations of `searchStep`. -/
noncomputable def searchIter (e : Evaluator) (r : Region2) :
    ℕ → V2 × V2 → Option (V2 × V2)
  | 0, br => some br
  | n + 1, br => (searchStep e r br).bind (searchIter e r n)

/-! ## QEF state and assembly (xtree.cpp lines 206-301) -/

/-- A symmetric 2×2 matrix `[[a, b], [b, c]]` (the shape of `AtA`). -/
@[ext] structure Sym2 where
  a : ℝ
  b : ℝ
  c : ℝ

def Sym2.zero : Sym2 := ⟨0, 0, 0⟩

noncomputable def Sym2.add (m n : Sym2) : Sym2 := ⟨m.a + n.a, m.b + n.b, m.c + n.c⟩

/-- Apply the symmetric matrix to a vector. -/
noncomputable def Sym2.app (m : Sym2) (v : V2) : V2 :=
  ⟨m.a * v.x + m.b * v.y, m.b * v.x + m.c * v.y⟩

noncomputable def V2.add (u v : V2) : V2 := ⟨u.x + v.x, u.y + v.y⟩

noncomputable def V2.sub (u v : V2) : V2 := ⟨u.x - v.x, u.y - v.y⟩

noncomputable def V2.dot (u v : V2) : ℝ := u.x * v.x + u.y * v.y

/-- Per-cell QEF state: compact matrices plus the homogeneous mass point
(spec section 3; `_mass_point` has the head in `massHead` and the weight
component `_mass_point[N]` in `massW`). -/
structure QEF where
  AtA : Sym2
  AtB : V2
  BtB : ℝ
  massHead : V2
  massW : ℝ

/-- Modelled from the spec: QEF state is zero-initialized (the member
defaults live in the header, which is not under `src/`). -/
def QEF.zero : QEF := ⟨Sym2.zero, ⟨0, 0⟩, 0, ⟨0, 0⟩, 0⟩

/-- One row of the QEF system (xtree.cpp lines 259-275): if any derivative
component is NaN the gradient is replaced by the zero vector, otherwise it
is normalized by its 3-D norm; the returned pair is
(`A.row(i)` = first two components, `b(i) = A.row(i) · p - v`). -/
noncomputable def qefRow (pos : V2) (d : Deriv) : V2 × ℝ :=
  match d.dx, d.dy, d.dz with
  | some dx, some dy, some dz =>
    let n := Real.sqrt (dx ^ 2 + dy ^ 2 + dz ^ 2)
    let row : V2 := ⟨dx / n, dy / n⟩
    (row, row.x * pos.x + row.y * pos.y - d.v)
  | _, _, _ =>
    let row : V2 := ⟨0, 0⟩
    (row, row.x * pos.x + row.y * pos.y - d.v)

/-- Per-axis DMC grid position (xtree.cpp lines 213-219): R = 4 samples,
`frac = i / (R - 1)`, `lower * (1 - frac) + upper * frac`. -/
noncomputable def gridAxis (lo hi : ℝ) (i : ℕ) : ℝ :=
  lo * (1 - (i : ℝ) / 3) + hi * ((i : ℝ) / 3)

/-- Sample position `i` of the 4×4 grid (xtree.cpp line 228):
`positions(i, j) = pts((i % R^(j+1)) / R^j, j)`, so x uses `i % 4` and
y uses `i / 4`. -/
noncomputable def gridPos (r : Region2) (i : ℕ) : V2 :=
  ⟨gridAxis r.lower.x r.upper.x (i % 4), gridAxis r.lower.y r.upper.y (i / 4)⟩

/-- The assembled row for grid sample `i` of a cell. -/
noncomputable def qefSample (e : Evaluator) (r : Region2) (i : ℕ) : V2 × ℝ :=
  qefRow (gridPos r i) (e.deriv (r.lift (gridPos r i)))

/-- Compact QEF matrices (xtree.cpp lines 277-281): `AtA = Aᵀ A`,
`AtB = Aᵀ b`, `BtB = bᵀ b`, written out as sums over the 16 sample rows. -/
noncomputable def leafQEF (e : Evaluator) (r : Region2) : Sym2 × V2 × ℝ :=
  (⟨∑ i ∈ Finset.range 16, (qefSample e r i).1.x ^ 2,
    ∑ i ∈ Finset.range 16, (qefSample e r i).1.x * (qefSample e r i).1.y,
    ∑ i ∈ Finset.range 16, (qefSample e r i).1.y ^ 2⟩,
   ⟨∑ i ∈ Finset.range 16, (qefSample e r i).1.x * (qefSample e r i).2,
    ∑ i ∈ Finset.range 16, (qefSample e r i).1.y * (qefSample e r i).2⟩,
   ∑ i ∈ Finset.range 16, (qefSample e r i).2 ^ 2)

/-! ## Eigen decomposition, rank and vertex solve (xtree.cpp lines 283-363) -/

/-- Modelled from the spec: `EIGENVALUE_CUTOFF` is set in the header, which
is not under `src/`; the spec gives "a small positive constant on the order
of 10⁻¹⁰" (section 4.5 and section 6). -/
noncomputable def EIGENVALUE_CUTOFF : ℝ := 1e-10

/-- The larger eigenvalue of a symmetric 2×2 matrix (the real spectrum of
`AtA` that `Eigen::EigenSolver(...).eigenvalues().real()` returns). -/
noncomputable def eigHi (m : Sym2) : ℝ :=
  ((m.a + m.c) + Real.sqrt ((m.a - m.c) ^ 2 + 4 * m.b ^ 2)) / 2

/-- The smaller eigenvalue of a symmetric 2×2 matrix. -/
noncomputable def eigLo (m : Sym2) : ℝ :=
  ((m.a + m.c) - Real.sqrt ((m.a - m.c) ^ 2 + 4 * m.b ^ 2)) / 2

/-- `(eigenvalues.array().abs() >= EIGENVALUE_CUTOFF).count()`
(xtree.cpp line 289). -/
noncomputable def eigCount (m : Sym2) (eps : ℝ) : ℕ :=
  (if eps ≤ |eigHi m| then 1 else 0) + (if eps ≤ |eigLo m| then 1 else 0)

/-- A diagonal entry of the truncated inverse `D` (xtree.cpp lines 341-342):
`|λ| < EIGENVALUE_CUTOFF ? 0 : 1 / λ`. -/
noncomputable def pinvD (lam eps : ℝ) : ℝ := if |lam| < eps then 0 else 1 / lam

/-- The truncated pseudo-inverse `AtAp = U * D * Uᵀ` (xtree.cpp lines
334-355), written in closed form for the symmetric 2×2 case.  For `b = 0`
the standard basis is an eigenbasis; for `b ≠ 0` the (unnormalized)
eigenvector for eigenvalue λ is `(b, λ - a)` and each retained eigenpair
contributes `pinvD λ · v vᵀ / ‖v‖²`.  Both branches are the basis-independent
value of `U D Uᵀ`. -/
noncomputable def pinv (m : Sym2) (eps : ℝ) : Sym2 :=
  if m.b = 0 then ⟨pinvD m.a eps, 0, pinvD m.c eps⟩
  else
    let term := fun (l : ℝ) =>
      (⟨pinvD l eps * m.b ^ 2 / (m.b ^ 2 + (l - m.a) ^ 2),
        pinvD l eps * (m.b * (l - m.a)) / (m.b ^ 2 + (l - m.a) ^ 2),
        pinvD l eps * (l - m.a) ^ 2 / (m.b ^ 2 + (l - m.a) ^ 2)⟩ : Sym2)
    (term (eigHi m)).add (term (eigLo m))

/-- `massPoint()` (xtree.cpp lines 375-379): divide the head of the
homogeneous mass point by its weight component. -/
noncomputable def massPoint (q : QEF) : V2 :=
  ⟨q.massHead.x / q.massW, q.massHead.y / q.massW⟩

/-- The vertex placed by `findVertex` (xtree.cpp lines 331-359):
`vert = AtAp * (AtB - AtA * center) + center` with `center = massPoint()`. -/
noncomputable def findVertexV (q : QEF) : V2 :=
  let c := massPoint q
  ((pinv q.AtA EIGENVALUE_CUTOFF).app (V2.sub q.AtB (q.AtA.app c))).add c

/-- The QEF error that `findVertex` returns (xtree.cpp line 362):
`vertᵀ AtA vert - 2 vertᵀ AtB + BtB`. -/
noncomputable def qefError (q : QEF) (v : V2) : ℝ :=
  v.dot (q.AtA.app v) - 2 * v.dot q.AtB + q.BtB

/-! ## The XTree node -/

/-- The scalar fields of one `XTree<2>` node.  `collapsed` is a ghost flag,
recorded (not read) by the embedding when a branch releases its children,
so that theorems can distinguish a collapsed leaf from a sampled one.
Modelled from the spec: the defaults `level = 0`, `rank = 0`,
`manifold = false`, zero QEF state are header member initializers
(spec section 3). -/
structure NodeData where
  region : Region2
  type : CellType
  corners : Fin 4 → Bool
  level : ℕ
  rank : ℕ
  manifold : Bool
  q : QEF
  vert : V2
  collapsed : Bool

/-- An `XTree<2>` node: data plus the optional 4 owned children. -/
inductive XTree : Type where
  | node (d : NodeData) (kids : Option (Fin 4 → XTree))

def XTree.data : XTree → NodeData
  | .node d _ => d

def XTree.children : XTree → Option (Fin 4 → XTree)
  | .node _ k => k

@[simp] theorem XTree.data_node (d : NodeData) (k : Option (Fin 4 → XTree)) :
    (XTree.node d k).data = d := rfl

@[simp] theorem XTree.children_node (d : NodeData) (k : Option (Fin 4 → XTree)) :
    (XTree.node d k).children = k := rfl

/-- `isBranch()`: the node still owns children. -/
def XTree.isBranch (t : XTree) : Bool := t.children.isSome

/-- `std::all_of(children, ... !o->isBranch())` (xtree.cpp lines 97-99). -/
def allLeaves (k : Fin 4 → XTree) : Bool :=
  !(k 0).isBranch && !(k 1).isBranch && !(k 2).isBranch && !(k 3).isBranch

/-- `std::all_of(children, ... o->manifold)` (xtree.cpp lines 105-107). -/
def allManifold (k : Fin 4 → XTree) : Bool :=
  (k 0).data.manifold && (k 1).data.manifold &&
  (k 2).data.manifold && (k 3).data.manifold

/-- Modelled from the spec: `leafsAreManifold()` lives in the header, which
is not under `src/`.  Spec section 4.3: "for the 2^N arrangement of
collapsed-into-one leaves, check that the merged corner configuration is
manifold and that the vertices the children would contribute do not disagree
along shared faces."  For N = 2 we model this as: the merged corner mask is
manifold, and adjacent children assign equal states to every shared corner
position (the four edge midpoints and the centre). -/
def leafsAreManifold (k : Fin 4 → XTree) : Bool :=
  cornersAreManifold (fun i => (k i).data.corners i) &&
  ((k 0).data.corners 1 == (k 1).data.corners 0) &&
  ((k 2).data.corners 3 == (k 3).data.corners 2) &&
  ((k 0).data.corners 2 == (k 2).data.corners 0) &&
  ((k 1).data.corners 3 == (k 3).data.corners 1) &&
  ((k 0).data.corners 3 == (k 1).data.corners 2) &&
  ((k 1).data.corners 2 == (k 2).data.corners 1) &&
  ((k 2).data.corners 1 == (k 3).data.corners 0)

/-- `std::accumulate(..., max ...)` over the four children, starting at 0
(used for both `level` and `rank`, xtree.cpp lines 92-94 and 116-119). -/
def max4 (f : Fin 4 → ℕ) : ℕ :=
  ((((0 : ℕ).max (f 0)).max (f 1)).max (f 2)).max (f 3)

/-- One step of the QEF merge loop (xtree.cpp lines 122-131): `AtA`, `AtB`,
`BtB` are always accumulated; `_mass_point` only when the child's rank
equals the already-computed parent rank. -/
noncomputable def mergeStep (rk : ℕ) (q : QEF) (d : NodeData) : QEF :=
  { AtA := q.AtA.add d.q.AtA
    AtB := q.AtB.add d.q.AtB
    BtB := q.BtB + d.q.BtB
    massHead := if d.rank = rk then q.massHead.add d.q.massHead else q.massHead
    massW := if d.rank = rk then q.massW + d.q.massW else q.massW }

/-- The full merge loop over the four children in order. -/
noncomputable def mergeQEF (k : Fin 4 → XTree) (rk : ℕ) : QEF :=
  mergeStep rk (mergeStep rk (mergeStep rk (mergeStep rk QEF.zero
    (k 0).data) (k 1).data) (k 2).data) (k 3).data

/-! ## Leaf handling and node assembly (xtree.cpp lines 80-302) -/

/-- Accumulate the mass point over the sign-changing edges (xtree.cpp lines
151-199): for each edge whose endpoint states differ, run the bracketed
search from the filled endpoint to the empty endpoint and add
`[inside; 1]`.  `none` propagates a search iteration that performed the
out-of-bounds `ps[-1]` read. -/
noncomputable def massAccum (e : Evaluator) (r : Region2) (cs : Fin 4 → Bool) :
    List (Fin 4 × Fin 4) → V2 × ℝ → Option (V2 × ℝ)
  | [], acc => some acc
  | ed :: rest, acc =>
    if cs ed.1 = cs ed.2 then massAccum e r cs rest acc
    else
      match searchIter e r 4
          (if cs ed.1 then r.cornerPos ed.1 else r.cornerPos ed.2,
           if cs ed.1 then r.cornerPos ed.2 else r.cornerPos ed.1) with
      | none => none
      | some br => massAccum e r cs rest (acc.1.add br.1, acc.2 + 1)

/-- The mass point of an AMBIGUOUS leaf after edge accumulation. -/
noncomputable def edgeMass (e : Evaluator) (r : Region2) (cs : Fin 4 → Bool) :
    Option (V2 × ℝ) :=
  massAccum e r cs edges2 (⟨0, 0⟩, 0)

/-- The body of the AMBIGUOUS-leaf block once the mass point is known
(xtree.cpp lines 201-301): either assemble and solve the QEF (manifold) or
place the vertex at the mass point. -/
noncomputable def ambLeafCore (e : Evaluator) (r : Region2) (cs : Fin 4 → Bool)
    (mp : V2 × ℝ) : NodeData :=
  if cornersAreManifold cs then
    let asm := leafQEF e r
    let q : QEF := ⟨asm.1, asm.2.1, asm.2.2, mp.1, mp.2⟩
    ⟨r, .AMBIGUOUS, cs, 0, eigCount asm.1 EIGENVALUE_CUTOFF, true, q,
      findVertexV q, false⟩
  else
    let q : QEF := ⟨Sym2.zero, ⟨0, 0⟩, 0, mp.1, mp.2⟩
    ⟨r, .AMBIGUOUS, cs, 0, 0, false, q, massPoint q, false⟩

/-- The AMBIGUOUS-leaf block (xtree.cpp lines 143-302): compute `manifold`
from the corner mask, accumulate the mass point, then run `ambLeafCore`. -/
noncomputable def ambLeafData (e : Evaluator) (r : Region2) (cs : Fin 4 → Bool) :
    Option NodeData :=
  (edgeMass e r cs).map (ambLeafCore e r cs)

/-- Lines 80-302 of xtree.cpp after `type`, `corners` and the optional
children have been determined: fill uniform corners and set `manifold` for
unambiguous cells; for a branch set `level`, run the three-part manifold
test when all children are leaves, merge the QEF and release the children
when the solved error is below 1e-8; for an AMBIGUOUS leaf run the leaf
block. -/
noncomputable def finishNode (e : Evaluator) (r : Region2) (ty : CellType)
    (cs0 : Fin 4 → Bool) (kids : Option (Fin 4 → XTree)) : Option XTree :=
  let cs := if ty = .AMBIGUOUS then cs0 else fun _ => ty = .FILLED
  match kids with
  | some k =>
    let lv := 1 + max4 (fun i => (k i).data.level)
    if allLeaves k then
      if cornersAreManifold cs && allManifold k && leafsAreManifold k then
        let rk := max4 (fun i => (k i).data.rank)
        let q := mergeQEF k rk
        let v := findVertexV q
        if qefError q v < 1e-8 then
          some (.node ⟨r, ty, cs, lv, rk, true, q, v, true⟩ none)
        else
          some (.node ⟨r, ty, cs, lv, rk, true, q, v, false⟩ (some k))
      else
        some (.node ⟨r, ty, cs, lv, 0, false, QEF.zero, ⟨0, 0⟩, false⟩ (some k))
    else
      some (.node ⟨r, ty, cs, lv, 0, decide (ty ≠ .AMBIGUOUS), QEF.zero,
        ⟨0, 0⟩, false⟩ (some k))
  | none =>
    if ty = .AMBIGUOUS then
      (ambLeafData e r cs).map (fun d => .node d none)
    else
      some (.node ⟨r, ty, cs, 0, 0, true, QEF.zero, ⟨0, 0⟩, false⟩ none)

/-! ## The recursive constructor (xtree.cpp lines 16-303) -/

/-- Push/pop events issued to the evaluator's specialization stack. -/
inductive Ev where
  | push
  | pop
  deriving DecidableEq

/-- `XTree<2>::XTree(eval, region)`.  Fuel bounds the recursion depth (the
C++ recursion terminates because `subdivide` shrinks the volume); `none`
means the fuel ran out or an edge search performed the `ps[-1]` read.

The returned event list is the exact sequence of `eval->push()` /
`eval->pop()` calls this construction issues: one `push` on entry (line 23),
a `pop` at line 53 on the subdivide path, and the unconditional `pop` at
line 78. -/
noncomputable def construct (e : Evaluator) : ℕ → Region2 → Option (XTree × List Ev)
  | 0, _ => none
  | fuel + 1, r =>
    let iv := e.ival r.lower3 r.upper3
    if isFilled iv then
      (finishNode e r .FILLED (fun _ => false) none).map (fun t => (t, [.push, .pop]))
    else if isEmpty iv then
      (finishNode e r .EMPTY (fun _ => false) none).map (fun t => (t, [.push, .pop]))
    else if 1 / 1000 < r.volume then
      match construct e fuel (r.subdiv 0), construct e fuel (r.subdiv 1),
            construct e fuel (r.subdiv 2), construct e fuel (r.subdiv 3) with
      | some k0, some k1, some k2, some k3 =>
        let k : Fin 4 → XTree := ![k0.1, k1.1, k2.1, k3.1]
        let cs : Fin 4 → Bool := fun i => (k i).data.corners i
        let ty := aggType (fun i => (k i).data.type)
        (finishNode e r ty cs (some k)).map
          (fun t => (t, [Ev.push] ++ k0.2 ++ k1.2 ++ k2.2 ++ k3.2 ++ [Ev.pop, Ev.pop]))
      | _, _, _, _ => none
    else
      let cs : Fin 4 → Bool := fun i => decide (e.val (r.lift (r.cornerPos i)) < 0)
      (finishNode e r (aggTypeCorners cs) cs none).map (fun t => (t, [.push, .pop]))

/-! ## Concrete test evaluators and the trees they produce

These closed scenarios drive `construct` through every code path the claims
talk about.  The root region is `[0, 1/500] × [0, 1]` (volume 1/500 > 1/1000,
so the root subdivides; each child has volume 1/2000 ≤ 1/1000, so children
take the terminal-sampling path). -/

/-- The root region of the scenarios. -/
noncomputable def regC : Region2 := ⟨⟨0, 0⟩, ⟨1 / 500, 1⟩, 0⟩

/-- Child 0 (low x, low y) of `regC`. -/
noncomputable def c0r : Region2 := ⟨⟨0, 0⟩, ⟨1 / 1000, 1 / 2⟩, 0⟩

/-- Child 1 (high x, low y) of `regC`. -/
noncomputable def c1r : Region2 := ⟨⟨1 / 1000, 0⟩, ⟨1 / 500, 1 / 2⟩, 0⟩

/-- Child 2 (low x, high y) of `regC`. -/
noncomputable def c2r : Region2 := ⟨⟨0, 1 / 2⟩, ⟨1 / 1000, 1⟩, 0⟩

/-- Child 3 (high x, high y) of `regC`. -/
noncomputable def c3r : Region2 := ⟨⟨1 / 1000, 1 / 2⟩, ⟨1 / 500, 1⟩, 0⟩

def cs1000 : Fin 4 → Bool := ![true, false, false, false]

def cs0100 : Fin 4 → Bool := ![false, true, false, false]

def cs0010 : Fin 4 → Bool := ![false, false, true, false]

def cs0001 : Fin 4 → Bool := ![false, false, false, true]

def csTT00 : Fin 4 → Bool := ![true, true, false, false]

/-- Evaluator for the rank-mismatch scenario: the interval oracle prunes the
two upper children as EMPTY; point values make child 0 filled only at
`(0, 0)` and child 1 only at `(1/500, 0)`; gradients are unit-x on the
`x = 0` grid column, unit-y on the `x = 1/500` grid column, NaN elsewhere. -/
noncomputable def evC : Evaluator :=
  ⟨fun lo _ => if 1 / 2 ≤ lo.y then (1, 2) else (-1, 1),
   fun p => if (p.x = 0 ∨ p.x = 1 / 500) ∧ p.y = 0 then -1 else 1,
   fun p =>
     if p.x = 0 then ⟨0, some 1, some 0, some 0⟩
     else if p.x = 1 / 500 then ⟨p.y, some 0, some 1, some 0⟩
     else ⟨0, none, none, none⟩⟩

/-- Evaluator for the uniform-corners scenario: every interval is ambiguous,
the point oracle is filled exactly at the four corners of `regC`, and every
gradient is NaN. -/
noncomputable def evA : Evaluator :=
  ⟨fun _ _ => (-1, 1),
   fun p => if (p.x = 0 ∨ p.x = 1 / 500) ∧ (p.y = 0 ∨ p.y = 1) then -1 else 1,
   fun _ => ⟨0, none, none, none⟩⟩

/-- Evaluator whose point oracle is identically 0: the very first edge-search
candidate already evaluates `>= 0`. -/
noncomputable def evTie : Evaluator :=
  ⟨fun _ _ => (0, 0), fun _ => 0, fun _ => ⟨0, none, none, none⟩⟩

/-- Evaluator whose point oracle is identically -1: no edge-search candidate
ever crosses. -/
noncomputable def evNeg : Evaluator :=
  ⟨fun _ _ => (-1, -1), fun _ => -1, fun _ => ⟨0, none, none, none⟩⟩

/-- Evaluator whose interval oracle always reports a filled interval. -/
noncomputable def evFull : Evaluator :=
  ⟨fun _ _ => (-2, -1), fun _ => -1, fun _ => ⟨0, none, none, none⟩⟩

/-- QEF state of child 0 under `evC`: four unit-x rows, mass point from two
edge intersections at the origin. -/
noncomputable def qC0 : QEF := ⟨⟨4, 0, 0⟩, ⟨0, 0⟩, 0, ⟨0, 0⟩, 2⟩

/-- Node data of child 0 under `evC`. -/
noncomputable def dC0 : NodeData := ⟨c0r, .AMBIGUOUS, cs1000, 0, 1, true, qC0, ⟨0, 0⟩, false⟩

/-- QEF state of child 1 under `evC`: four unit-y rows, mass point from two
edge intersections at `(1/500, 0)`. -/
noncomputable def qC1 : QEF := ⟨⟨0, 0, 4⟩, ⟨0, 0⟩, 0, ⟨1 / 250, 0⟩, 2⟩

/-- Node data of child 1 under `evC`. -/
noncomputable def dC1 : NodeData :=
  ⟨c1r, .AMBIGUOUS, cs0100, 0, 1, true, qC1, ⟨1 / 500, 0⟩, false⟩

/-- Node data of an interval-pruned EMPTY leaf on region `r`. -/
noncomputable def dEmpty (r : Region2) : NodeData :=
  ⟨r, .EMPTY, fun _ => false, 0, 0, true, QEF.zero, ⟨0, 0⟩, false⟩

/-- Merged QEF of the `evC` root: `AtA` sums to rank 2 while both
contributing children have rank 1. -/
noncomputable def qCP : QEF := ⟨⟨4, 0, 4⟩, ⟨0, 0⟩, 0, ⟨1 / 250, 0⟩, 4⟩

/-- Node data of the `evC` root after it collapses. -/
noncomputable def dCP : NodeData := ⟨regC, .AMBIGUOUS, csTT00, 1, 1, true, qCP, ⟨0, 0⟩, true⟩

/-- The push/pop trace of a root that subdivides once into four leaves:
1 + 4 pushes against 2 + 4 pops. -/
def trRoot : List Ev :=
  [.push, .push, .pop, .push, .pop, .push, .pop, .push, .pop, .pop, .pop]

/-- QEF state of `evA` child `i`: zero matrices, mass weight 2. -/
noncomputable def qA0 : QEF := ⟨Sym2.zero, ⟨0, 0⟩, 0, ⟨0, 0⟩, 2⟩

noncomputable def qA1 : QEF := ⟨Sym2.zero, ⟨0, 0⟩, 0, ⟨1 / 250, 0⟩, 2⟩

noncomputable def qA2 : QEF := ⟨Sym2.zero, ⟨0, 0⟩, 0, ⟨0, 2⟩, 2⟩

noncomputable def qA3 : QEF := ⟨Sym2.zero, ⟨0, 0⟩, 0, ⟨1 / 250, 2⟩, 2⟩

noncomputable def dA0 : NodeData := ⟨c0r, .AMBIGUOUS, cs1000, 0, 0, true, qA0, ⟨0, 0⟩, false⟩

noncomputable def dA1 : NodeData :=
  ⟨c1r, .AMBIGUOUS, cs0100, 0, 0, true, qA1, ⟨1 / 500, 0⟩, false⟩

noncomputable def dA2 : NodeData := ⟨c2r, .AMBIGUOUS, cs0010, 0, 0, true, qA2, ⟨0, 1⟩, false⟩

noncomputable def dA3 : NodeData :=
  ⟨c3r, .AMBIGUOUS, cs0001, 0, 0, true, qA3, ⟨1 / 500, 1⟩, false⟩

/-- Merged QEF of the `evA` root. -/
noncomputable def qAP : QEF := ⟨Sym2.zero, ⟨0, 0⟩, 0, ⟨1 / 125, 4⟩, 8⟩

/-- Node data of the `evA` root after it collapses: an AMBIGUOUS leaf whose
corners are uniformly FILLED. -/
noncomputable def dAP : NodeData :=
  ⟨regC, .AMBIGUOUS, fun _ => true, 1, 0, true, qAP, ⟨1 / 1000, 1 / 2⟩, true⟩

/-- The four children of the `evC` root as trees. -/
noncomputable def kidsC : Fin 4 → XTree :=
  ![XTree.node dC0 none, XTree.node dC1 none,
    XTree.node (dEmpty c2r) none, XTree.node (dEmpty c3r) none]

/-- The four children of the `evA` root as trees. -/
noncomputable def kidsA : Fin 4 → XTree :=
  ![XTree.node dA0 none, XTree.node dA1 none, XTree.node dA2 none,
    XTree.node dA3 none]

/-! ## Generic evaluation lemmas -/

theorem searchCandidate_zero (br : V2 × V2) : searchCandidate br 0 = br.1 := by
  ext <;> simp [searchCandidate, edgeFrac]

theorem searchCandidate_one (br : V2 × V2) : searchCandidate br 1 = br.2 := by
  ext <;> simp [searchCandidate, edgeFrac] <;> norm_num

theorem firstCrossAux_succ (f : ℕ → ℝ) (j n : ℕ) :
    firstCrossAux f j (n + 1) = if 0 ≤ f j then some j else firstCrossAux f (j + 1) n :=
  rfl

theorem firstCross_one (f : ℕ → ℝ) (h0 : f 0 < 0) (h1 : 0 ≤ f 1) :
    firstCross f = some 1 := by
  unfold firstCross
  rw [show (16 : ℕ) = 15 + 1 from rfl, firstCrossAux_succ, if_neg (not_le.mpr h0),
    firstCrossAux_succ, if_pos h1]

theorem firstCrossAux_neg (f : ℕ → ℝ) (h : ∀ j, f j < 0) :
    ∀ n j, firstCrossAux f j n = none := by
  intro n
  induction n with
  | zero => intro j; rfl
  | succ m ih =>
    intro j
    rw [firstCrossAux_succ, if_neg (not_le.mpr (h j))]
    exact ih (j + 1)

/-- A search iteration whose first two candidates bracket the sign change
leaves the bracket unchanged. -/
theorem searchStep_id (e : Evaluator) (r : Region2) (A B : V2)
    (hA : e.val (r.lift A) < 0) (hB : 0 ≤ e.val (r.lift B)) :
    searchStep e r (A, B) = some (A, B) := by
  unfold searchStep
  rw [firstCross_one _ (by rw [searchCandidate_zero]; exact hA)
      (by rw [searchCandidate_one]; exact hB)]
  show some (searchCandidate (A, B) 0, searchCandidate (A, B) (0 + 1)) = some (A, B)
  rw [searchCandidate_zero, searchCandidate_one]

theorem searchIter_id (e : Evaluator) (r : Region2) (A B : V2)
    (hA : e.val (r.lift A) < 0) (hB : 0 ≤ e.val (r.lift B)) :
    ∀ n, searchIter e r n (A, B) = some (A, B) := by
  intro n
  induction n with
  | zero => rfl
  | succ m ih =>
    rw [searchIter, searchStep_id e r A B hA hB]
    exact ih

theorem eigHi_diag (a c : ℝ) : eigHi ⟨a, 0, c⟩ = max a c := by
  unfold eigHi
  simp only
  rw [show (a - c) ^ 2 + 4 * (0 : ℝ) ^ 2 = (a - c) ^ 2 by ring, Real.sqrt_sq_eq_abs]
  rcases le_total a c with h | h
  · rw [abs_of_nonpos (by linarith), max_eq_right h]; ring
  · rw [abs_of_nonneg (by linarith), max_eq_left h]; ring

theorem eigLo_diag (a c : ℝ) : eigLo ⟨a, 0, c⟩ = min a c := by
  unfold eigLo
  simp only
  rw [show (a - c) ^ 2 + 4 * (0 : ℝ) ^ 2 = (a - c) ^ 2 by ring, Real.sqrt_sq_eq_abs]
  rcases le_total a c with h | h
  · rw [abs_of_nonpos (by linarith), min_eq_left h]; ring
  · rw [abs_of_nonneg (by linarith), min_eq_right h]; ring

theorem eigCount_zeroM (eps : ℝ) (h : 0 < eps) : eigCount Sym2.zero eps = 0 := by
  unfold eigCount Sym2.zero
  rw [eigHi_diag, eigLo_diag]
  norm_num
  linarith

theorem pinv_diag (a c eps : ℝ) :
    pinv ⟨a, 0, c⟩ eps = ⟨pinvD a eps, 0, pinvD c eps⟩ := by
  unfold pinv
  rw [if_pos rfl]

/-- For a node whose `AtA` is identically zero the constrained solve leaves
the vertex at the mass point. -/
theorem findVertexV_zeroAtA (q : QEF) (hA : q.AtA = Sym2.zero) :
    findVertexV q = massPoint q := by
  unfold findVertexV
  rw [hA]
  have h1 : pinv Sym2.zero EIGENVALUE_CUTOFF = ⟨0, 0, 0⟩ := by
    rw [show (Sym2.zero : Sym2) = ⟨0, 0, 0⟩ from rfl, pinv_diag]
    unfold pinvD EIGENVALUE_CUTOFF
    norm_num
  rw [h1]
  ext <;> simp [Sym2.app, V2.add, V2.sub, Sym2.zero]

/-- The weight accumulated by `massAccum` is the starting weight plus one
per sign-changing edge. -/
theorem massAccum_weight (e : Evaluator) (r : Region2) (cs : Fin 4 → Bool) :
    ∀ (l : List (Fin 4 × Fin 4)) (acc : V2 × ℝ) (m : V2 × ℝ),
      massAccum e r cs l acc = some m →
      m.2 = acc.2 + ((l.filter (fun ed => cs ed.1 ≠ cs ed.2)).length : ℝ) := by
  intro l
  induction l with
  | nil =>
    intro acc m hm
    simp only [massAccum, Option.some.injEq] at hm
    subst hm
    simp
  | cons ed rest ih =>
    intro acc m hm
    rw [massAccum] at hm
    by_cases hed : cs ed.1 = cs ed.2
    · rw [if_pos hed] at hm
      have hw := ih acc m hm
      rw [hw]
      have hl : (List.filter (fun ed => decide (cs ed.1 ≠ cs ed.2)) (ed :: rest))
          = List.filter (fun ed => decide (cs ed.1 ≠ cs ed.2)) rest := by
        simp [List.filter_cons, hed]
      rw [hl]
    · rw [if_neg hed] at hm
      rcases hit : searchIter e r 4
          (if cs ed.1 then r.cornerPos ed.1 else r.cornerPos ed.2,
           if cs ed.1 then r.cornerPos ed.2 else r.cornerPos ed.1) with _ | br
      · rw [hit] at hm; exact absurd hm (by simp)
      · rw [hit] at hm
        have hw := ih _ m hm
        rw [hw]
        have hl : (List.filter (fun ed => decide (cs ed.1 ≠ cs ed.2)) (ed :: rest)).length
            = (List.filter (fun ed => decide (cs ed.1 ≠ cs ed.2)) rest).length + 1 := by
          simp [List.filter_cons, hed]
        rw [hl]
        push_cast
        ring

/-- A mixed corner configuration always has at least one sign-changing edge
(the square's edge graph is connected). -/
theorem mixed_has_edge :
    ∀ cs : Fin 4 → Bool, (∃ i, cs i = true) → (∃ i, cs i = false) →
      1 ≤ (edges2.filter (fun ed => cs ed.1 ≠ cs ed.2)).length := by
  decide

/-- The fold of `mergeStep` over four children, written as sums: `AtA`,
`AtB`, `BtB` accumulate over every child, the mass point only over children
whose rank equals `rk`. -/
theorem mergeQEF_sums (k : Fin 4 → XTree) (rk : ℕ) :
    (mergeQEF k rk).AtA.a = ∑ i : Fin 4, (k i).data.q.AtA.a ∧
    (mergeQEF k rk).AtA.b = ∑ i : Fin 4, (k i).data.q.AtA.b ∧
    (mergeQEF k rk).AtA.c = ∑ i : Fin 4, (k i).data.q.AtA.c ∧
    (mergeQEF k rk).AtB.x = ∑ i : Fin 4, (k i).data.q.AtB.x ∧
    (mergeQEF k rk).AtB.y = ∑ i : Fin 4, (k i).data.q.AtB.y ∧
    (mergeQEF k rk).BtB = ∑ i : Fin 4, (k i).data.q.BtB ∧
    (mergeQEF k rk).massHead.x
      = ∑ i ∈ Finset.univ.filter (fun i => (k i).data.rank = rk),
          (k i).data.q.massHead.x ∧
    (mergeQEF k rk).massHead.y
      = ∑ i ∈ Finset.univ.filter (fun i => (k i).data.rank = rk),
          (k i).data.q.massHead.y ∧
    (mergeQEF k rk).massW
      = ∑ i ∈ Finset.univ.filter (fun i => (k i).data.rank = rk),
          (k i).data.q.massW := by
  simp only [mergeQEF, mergeStep, QEF.zero, Sym2.zero, Sym2.add, V2.add,
    Finset.sum_filter, Fin.sum_univ_four]
  refine ⟨by ring, by ring, by ring, by ring, by ring, by ring, ?_, ?_, ?_⟩ <;>
    split_ifs <;> ring

theorem firstCross_zero (f : ℕ → ℝ) (h0 : 0 ≤ f 0) : firstCross f = some 0 := by
  unfold firstCross
  rw [show (16 : ℕ) = 15 + 1 from rfl, firstCrossAux_succ, if_pos h0]

/-- A search iteration whose first candidate already evaluates `>= 0` hits
the `ps[-1]` read. -/
theorem searchStep_oob (e : Evaluator) (r : Region2) (br : V2 × V2)
    (h : 0 ≤ e.val (r.lift br.1)) : searchStep e r br = none := by
  unfold searchStep
  rw [firstCross_zero _ (by rw [searchCandidate_zero]; exact h)]

/-- A search iteration in which no candidate crosses keeps the bracket. -/
theorem searchStep_keep (e : Evaluator) (r : Region2) (br : V2 × V2)
    (h : ∀ j, e.val (r.lift (searchCandidate br j)) < 0) :
    searchStep e r br = some br := by
  unfold searchStep
  rw [show firstCross (fun j => e.val (r.lift (searchCandidate br j))) = none from
    firstCrossAux_neg _ h 16 0]

/-- Field values of any node produced by the AMBIGUOUS-leaf block. -/
theorem ambLeafData_fields (e : Evaluator) (r : Region2) (cs : Fin 4 → Bool)
    (d : NodeData) (h : ambLeafData e r cs = some d) :
    d.level = 0 ∧ d.collapsed = false ∧ d.type = .AMBIGUOUS ∧
    d.region = r ∧ d.corners = cs ∧ d.manifold = cornersAreManifold cs := by
  rw [ambLeafData] at h
  rcases hem : edgeMass e r cs with _ | mp <;> rw [hem] at h
  · exact Option.noConfusion h
  · simp only [Option.map_some', Option.some.injEq] at h
    subst h
    unfold ambLeafCore
    by_cases hmf : cornersAreManifold cs = true
    · rw [if_pos hmf]
      exact ⟨rfl, rfl, rfl, rfl, rfl, hmf.symm⟩
    · rw [if_neg hmf]
      exact ⟨rfl, rfl, rfl, rfl, rfl, (Bool.eq_false_iff.mpr hmf).symm⟩

/-- Field values of any leaf produced by `finishNode` with no children. -/
theorem finishNode_leaf_fields (e : Evaluator) (r : Region2) (ty : CellType)
    (cs : Fin 4 → Bool) (t : XTree) (h : finishNode e r ty cs none = some t) :
    t.children = none ∧ t.data.level = 0 ∧ t.data.collapsed = false := by
  simp only [finishNode] at h
  by_cases hty : ty = .AMBIGUOUS
  · rw [if_pos hty] at h
    rcases ha : ambLeafData e r (if ty = CellType.AMBIGUOUS then cs
        else fun _ => decide (ty = CellType.FILLED)) with _ | d
    · rw [ha] at h
      exact Option.noConfusion h
    · rw [ha] at h
      simp only [Option.map_some', Option.some.injEq] at h
      subst h
      obtain ⟨h0, h1, -⟩ := ambLeafData_fields _ _ _ _ ha
      exact ⟨rfl, h0, h1⟩
  · rw [if_neg hty] at h
    simp only [Option.some.injEq] at h
    subst h
    exact ⟨rfl, rfl, rfl⟩

/-- Field values of any node produced by `finishNode` with children: the
level is one more than the maximum child level, and the children are kept
exactly when the node does not collapse. -/
theorem finishNode_branch_fields (e : Evaluator) (r : Region2) (ty : CellType)
    (cs : Fin 4 → Bool) (k : Fin 4 → XTree) (t : XTree)
    (h : finishNode e r ty cs (some k) = some t) :
    t.data.level = 1 + max4 (fun i => (k i).data.level) ∧
    ((t.children = some k ∧ t.data.collapsed = false) ∨
     (t.children = none ∧ t.data.collapsed = true)) := by
  simp only [finishNode] at h
  split_ifs at h <;> simp only [Option.some.injEq] at h <;> subst h <;> simp

/-- A NaN gradient sample assembles the zero row and `b = -v`. -/
theorem qefRow_nan (p : V2) (d : Deriv)
    (h : d.dx = none ∨ d.dy = none ∨ d.dz = none) :
    qefRow p d = (⟨0, 0⟩, -d.v) := by
  obtain ⟨v, dx, dy, dz⟩ := d
  cases dx <;> cases dy <;> cases dz
  case some.some.some => simp at h
  all_goals
    show ((⟨0, 0⟩ : V2), (0 : ℝ) * p.x + 0 * p.y - v) = (⟨0, 0⟩, -v)
    have hb : (0 : ℝ) * p.x + 0 * p.y - v = -v := by ring
    rw [hb]

/-! ## Claim theorems (part 1: statements settled without the scenarios) -/

/-- C2 (counterexample): for a NaN-gradient sample at a point where
`F = 1`, the assembled `A` row is zero but the `b` entry is `-F(p) = -1`,
not zero as the claim states. -/
theorem c2_nan_b_entry_counterexample :
    (qefRow ⟨0, 0⟩ ⟨1, none, some 0, some 0⟩).1 = (⟨0, 0⟩ : V2) ∧
    (qefRow ⟨0, 0⟩ ⟨1, none, some 0, some 0⟩).2 = -1 ∧
    (qefRow ⟨0, 0⟩ ⟨1, none, some 0, some 0⟩).2 ≠ 0 := by
  have h : qefRow ⟨0, 0⟩ ⟨1, none, some 0, some 0⟩ = (⟨0, 0⟩, -1) :=
    qefRow_nan _ _ (Or.inl rfl)
  rw [h]
  norm_num

/-- C2 (amended): a sample with any NaN gradient component gets the zero
`A` row and the `b` entry `-F(pᵢ)`; it therefore contributes nothing to
`AtA` or `AtB`, but adds `F(pᵢ)²` to `BtB`. -/
theorem c2_nan_row_amended (p : V2) (d : Deriv)
    (h : d.dx = none ∨ d.dy = none ∨ d.dz = none) :
    (qefRow p d).1 = (⟨0, 0⟩ : V2) ∧ (qefRow p d).2 = -d.v ∧
    (qefRow p d).1.x ^ 2 = 0 ∧ (qefRow p d).1.x * (qefRow p d).1.y = 0 ∧
    (qefRow p d).1.y ^ 2 = 0 ∧
    (qefRow p d).1.x * (qefRow p d).2 = 0 ∧
    (qefRow p d).1.y * (qefRow p d).2 = 0 ∧
    (qefRow p d).2 ^ 2 = d.v ^ 2 := by
  rw [qefRow_nan p d h]
  refine ⟨rfl, rfl, by norm_num, by norm_num, by norm_num, by norm_num, by norm_num,
    by ring⟩

/-- Witness for `c2_nan_row_amended` at the concrete NaN sample. -/
theorem c2_nan_row_amended_witness :
    ((⟨1, none, some 0, some 0⟩ : Deriv).dx = none ∨
     (⟨1, none, some 0, some 0⟩ : Deriv).dy = none ∨
     (⟨1, none, some 0, some 0⟩ : Deriv).dz = none) ∧
    ((qefRow ⟨0, 0⟩ ⟨1, none, some 0, some 0⟩).1 = (⟨0, 0⟩ : V2) ∧
     (qefRow ⟨0, 0⟩ ⟨1, none, some 0, some 0⟩).2
       = -(⟨1, none, some 0, some 0⟩ : Deriv).v ∧
     (qefRow ⟨0, 0⟩ ⟨1, none, some 0, some 0⟩).1.x ^ 2 = 0 ∧
     (qefRow ⟨0, 0⟩ ⟨1, none, some 0, some 0⟩).1.x *
       (qefRow ⟨0, 0⟩ ⟨1, none, some 0, some 0⟩).1.y = 0 ∧
     (qefRow ⟨0, 0⟩ ⟨1, none, some 0, some 0⟩).1.y ^ 2 = 0 ∧
     (qefRow ⟨0, 0⟩ ⟨1, none, some 0, some 0⟩).1.x *
       (qefRow ⟨0, 0⟩ ⟨1, none, some 0, some 0⟩).2 = 0 ∧
     (qefRow ⟨0, 0⟩ ⟨1, none, some 0, some 0⟩).1.y *
       (qefRow ⟨0, 0⟩ ⟨1, none, some 0, some 0⟩).2 = 0 ∧
     (qefRow ⟨0, 0⟩ ⟨1, none, some 0, some 0⟩).2 ^ 2
       = (⟨1, none, some 0, some 0⟩ : Deriv).v ^ 2) :=
  ⟨Or.inl rfl, c2_nan_row_amended ⟨0, 0⟩ ⟨1, none, some 0, some 0⟩ (Or.inl rfl)⟩

/-- C3 (amended): on the subdivide path the aggregate type is determined by
the children's types (all EMPTY → EMPTY, all FILLED → FILLED, otherwise
AMBIGUOUS), and only on the terminal-sampling path by the corner states;
in particular an internal node whose children are all AMBIGUOUS is
AMBIGUOUS no matter what its copied corners are. -/
theorem c3_aggregate_type_amended :
    (∀ kt : Fin 4 → CellType,
      (aggType kt = .EMPTY ↔ ∀ i, kt i = .EMPTY) ∧
      (aggType kt = .FILLED ↔ ∀ i, kt i = .FILLED) ∧
      (aggType kt = .AMBIGUOUS ↔
        ¬ (∀ i, kt i = .EMPTY) ∧ ¬ (∀ i, kt i = .FILLED))) ∧
    (∀ cs : Fin 4 → Bool,
      (aggTypeCorners cs = .EMPTY ↔ ∀ i, cs i = false) ∧
      (aggTypeCorners cs = .FILLED ↔ ∀ i, cs i = true) ∧
      (aggTypeCorners cs = .AMBIGUOUS ↔
        ¬ (∀ i, cs i = false) ∧ ¬ (∀ i, cs i = true))) := by
  constructor <;> decide

/-- C4: the edge-search interpolation parameter is `j / (N - 1)` with `N`
the spatial dimension, not `j / 15`: at N = 2 candidate 1 already sits at
the outside endpoint (t = 1, not 1/15), and at N = 3 candidate 15 sits at
t = 15/2, far beyond the outside endpoint (t = 1). -/
theorem c4_edge_candidates_use_dimension :
    edgeFrac 2 1 = 1 ∧ edgeFrac 3 15 = 15 / 2 ∧
    edgeFrac 2 1 ≠ 1 / 15 ∧ edgeFrac 3 15 ≠ 1 ∧
    searchCandidate (⟨0, 0⟩, ⟨1, 0⟩) 1 = (⟨1, 0⟩ : V2) := by
  refine ⟨?_, ?_, ?_, ?_, searchCandidate_one _⟩ <;> norm_num [edgeFrac]

/-- C5: when the first candidate of a search iteration evaluates `>= 0`
(floating-point tie at the inside endpoint) the source reads `ps[-1]`
(modelled as `none`) instead of keeping the bracket; when no candidate
crosses, the bracket is indeed kept unchanged. -/
theorem c5_first_candidate_tie_oob :
    searchStep evTie ⟨⟨0, 0⟩, ⟨1, 1⟩, 0⟩ (⟨0, 0⟩, ⟨1, 0⟩) = none ∧
    searchStep evNeg ⟨⟨0, 0⟩, ⟨1, 1⟩, 0⟩ (⟨0, 0⟩, ⟨1, 0⟩) = some (⟨0, 0⟩, ⟨1, 0⟩) := by
  constructor
  · exact searchStep_oob _ _ _ (by norm_num [evTie])
  · exact searchStep_keep _ _ _ (fun j => by norm_num [evNeg])

/-- C6 (amended): for every leaf produced by the AMBIGUOUS-leaf block
(manifold or not), `rank` equals the count of eigenvalues of its `AtA` with
absolute value at least `EIGENVALUE_CUTOFF`; a collapsed leaf instead
carries the maximum child rank (see the counterexample). -/
theorem c6_leaf_rank_amended (e : Evaluator) (r : Region2) (cs : Fin 4 → Bool)
    (d : NodeData) (h : ambLeafData e r cs = some d) :
    d.rank = eigCount d.q.AtA EIGENVALUE_CUTOFF := by
  rw [ambLeafData] at h
  rcases hem : edgeMass e r cs with _ | mp <;> rw [hem] at h
  · exact Option.noConfusion h
  · simp only [Option.map_some', Option.some.injEq] at h
    subst h
    unfold ambLeafCore
    by_cases hmf : cornersAreManifold cs = true
    · rw [if_pos hmf]
    · rw [if_neg hmf]
      show (0 : ℕ) = eigCount Sym2.zero EIGENVALUE_CUTOFF
      rw [eigCount_zeroM]
      norm_num [EIGENVALUE_CUTOFF]

/-- C8: when a branch with four leaf children passes the three manifold
checks, the merged QEF sums `AtA`, `AtB`, `BtB` over every child and the
mass point only over children whose rank equals the parent rank (the
maximum child rank); the children are released (the node becomes a leaf)
iff the QEF error at the solved vertex is below 1e-8. -/
theorem c8_collapse_merge (e : Evaluator) (r : Region2) (ty : CellType)
    (cs0 : Fin 4 → Bool) (k : Fin 4 → XTree) (t : XTree)
    (hl : allLeaves k = true)
    (hm : (cornersAreManifold (if ty = .AMBIGUOUS then cs0 else fun _ => ty = .FILLED)
           && allManifold k && leafsAreManifold k) = true)
    (hf : finishNode e r ty cs0 (some k) = some t) :
    t.data.rank = max4 (fun i => (k i).data.rank) ∧
    t.data.q.AtA.a = ∑ i : Fin 4, (k i).data.q.AtA.a ∧
    t.data.q.AtA.b = ∑ i : Fin 4, (k i).data.q.AtA.b ∧
    t.data.q.AtA.c = ∑ i : Fin 4, (k i).data.q.AtA.c ∧
    t.data.q.AtB.x = ∑ i : Fin 4, (k i).data.q.AtB.x ∧
    t.data.q.AtB.y = ∑ i : Fin 4, (k i).data.q.AtB.y ∧
    t.data.q.BtB = ∑ i : Fin 4, (k i).data.q.BtB ∧
    t.data.q.massHead.x
      = ∑ i ∈ Finset.univ.filter
          (fun i => (k i).data.rank = max4 (fun j => (k j).data.rank)),
          (k i).data.q.massHead.x ∧
    t.data.q.massHead.y
      = ∑ i ∈ Finset.univ.filter
          (fun i => (k i).data.rank = max4 (fun j => (k j).data.rank)),
          (k i).data.q.massHead.y ∧
    t.data.q.massW
      = ∑ i ∈ Finset.univ.filter
          (fun i => (k i).data.rank = max4 (fun j => (k j).data.rank)),
          (k i).data.q.massW ∧
    (t.children = none ↔
      qefError (mergeQEF k (max4 (fun i => (k i).data.rank)))
        (findVertexV (mergeQEF k (max4 (fun i => (k i).data.rank)))) < 1e-8) := by
  simp only [finishNode] at hf
  rw [if_pos hl, if_pos hm] at hf
  obtain ⟨hs1, hs2, hs3, hs4, hs5, hs6, hs7, hs8, hs9⟩ :=
    mergeQEF_sums k (max4 (fun i => (k i).data.rank))
  split_ifs at hf <;> simp only [Option.some.injEq] at hf <;> subst hf <;>
    refine ⟨rfl, hs1, hs2, hs3, hs4, hs5, hs6, hs7, hs8, hs9, ?_⟩ <;>
    simp_all

/-- C9: an interval-pruned region yields a childless uniform leaf of the
interval's type, with every corner set to that type, `manifold = true` and
no QEF work, for any fuel and any evaluator. -/
theorem c9_interval_prune (e : Evaluator) (fuel : ℕ) (r : Region2)
    (h : isFilled (e.ival r.lower3 r.upper3) ∨ isEmpty (e.ival r.lower3 r.upper3)) :
    ∃ t tr, construct e (fuel + 1) r = some (t, tr) ∧
      t.children = none ∧ t.data.manifold = true ∧ t.data.level = 0 ∧
      t.data.rank = 0 ∧ t.data.q = QEF.zero ∧
      (isFilled (e.ival r.lower3 r.upper3) →
        t.data.type = .FILLED ∧ ∀ i, t.data.corners i = true) ∧
      (¬ isFilled (e.ival r.lower3 r.upper3) →
        t.data.type = .EMPTY ∧ ∀ i, t.data.corners i = false) := by
  by_cases hF : isFilled (e.ival r.lower3 r.upper3)
  · refine ⟨XTree.node ⟨r, .FILLED, fun _ => decide (CellType.FILLED = .FILLED),
      0, 0, true, QEF.zero, ⟨0, 0⟩, false⟩ none, [.push, .pop], ?_, rfl, rfl, rfl,
      rfl, rfl, fun _ => ⟨rfl, fun _ => rfl⟩, fun hc => absurd hF hc⟩
    rw [construct, if_pos hF]
    rfl
  · have hE : isEmpty (e.ival r.lower3 r.upper3) := h.resolve_left hF
    refine ⟨XTree.node ⟨r, .EMPTY, fun _ => decide (CellType.EMPTY = .FILLED),
      0, 0, true, QEF.zero, ⟨0, 0⟩, false⟩ none, [.push, .pop], ?_, rfl, rfl, rfl,
      rfl, rfl, fun hc => absurd hc hF, fun _ => ⟨rfl, fun _ => rfl⟩⟩
    rw [construct, if_neg hF, if_pos hE]
    rfl

/-- Witness for `c9_interval_prune` with the always-filled evaluator. -/
theorem c9_interval_prune_witness :
    (isFilled (evFull.ival (Region2.lower3 ⟨⟨0, 0⟩, ⟨1, 1⟩, 0⟩)
        (Region2.upper3 ⟨⟨0, 0⟩, ⟨1, 1⟩, 0⟩)) ∨
     isEmpty (evFull.ival (Region2.lower3 ⟨⟨0, 0⟩, ⟨1, 1⟩, 0⟩)
        (Region2.upper3 ⟨⟨0, 0⟩, ⟨1, 1⟩, 0⟩))) ∧
    (∃ t tr, construct evFull (0 + 1) ⟨⟨0, 0⟩, ⟨1, 1⟩, 0⟩ = some (t, tr) ∧
      t.children = none ∧ t.data.manifold = true ∧ t.data.level = 0 ∧
      t.data.rank = 0 ∧ t.data.q = QEF.zero ∧
      (isFilled (evFull.ival (Region2.lower3 ⟨⟨0, 0⟩, ⟨1, 1⟩, 0⟩)
          (Region2.upper3 ⟨⟨0, 0⟩, ⟨1, 1⟩, 0⟩)) →
        t.data.type = .FILLED ∧ ∀ i, t.data.corners i = true) ∧
      (¬ isFilled (evFull.ival (Region2.lower3 ⟨⟨0, 0⟩, ⟨1, 1⟩, 0⟩)
          (Region2.upper3 ⟨⟨0, 0⟩, ⟨1, 1⟩, 0⟩)) →
        t.data.type = .EMPTY ∧ ∀ i, t.data.corners i = false)) :=
  ⟨Or.inl (by norm_num [evFull, isFilled]),
   c9_interval_prune evFull 0 ⟨⟨0, 0⟩, ⟨1, 1⟩, 0⟩
     (Or.inl (by norm_num [evFull, isFilled]))⟩

/-- C10: an AMBIGUOUS leaf has mixed corners, hence at least one
sign-changing edge, so the homogeneous mass-point weight is at least 1
after edge accumulation; the division in `massPoint()` is well-defined and
a non-manifold AMBIGUOUS leaf's vertex is the mass-point centroid. -/
theorem c10_amb_leaf_mass (e : Evaluator) (r : Region2) (cs : Fin 4 → Bool)
    (d : NodeData)
    (hmix1 : ∃ i, cs i = true) (hmix0 : ∃ i, cs i = false)
    (hd : ambLeafData e r cs = some d) :
    1 ≤ d.q.massW ∧ d.q.massW ≠ 0 ∧
    (d.manifold = false → d.vert = massPoint d.q) := by
  rw [ambLeafData] at hd
  rcases hem : edgeMass e r cs with _ | mp <;> rw [hem] at hd
  · exact Option.noConfusion hd
  · simp only [Option.map_some', Option.some.injEq] at hd
    subst hd
    have hmw := massAccum_weight e r cs edges2 (⟨0, 0⟩, 0) mp hem
    have hlen := mixed_has_edge cs hmix1 hmix0
    have hmp2 : (1 : ℝ) ≤ mp.2 := by
      rw [hmw]
      simp only [zero_add]
      exact_mod_cast hlen
    unfold ambLeafCore
    by_cases hc : cornersAreManifold cs = true
    · rw [if_pos hc]
      refine ⟨hmp2, fun h0 => ?_, fun hmf => ?_⟩
      · have h0x : mp.2 = 0 := h0
        linarith
      · exact Bool.noConfusion (show (true : Bool) = false from hmf)
    · rw [if_neg hc]
      refine ⟨hmp2, fun h0 => ?_, fun _ => rfl⟩
      have h0x : mp.2 = 0 := h0
      linarith

/-! ## Corner positions and mass accumulation helpers -/

theorem cornerPos0 (r : Region2) : r.cornerPos 0 = r.lower := by
  unfold Region2.cornerPos
  ext <;> norm_num

theorem cornerPos1 (r : Region2) : r.cornerPos 1 = ⟨r.upper.x, r.lower.y⟩ := by
  unfold Region2.cornerPos
  ext <;> norm_num

theorem cornerPos2 (r : Region2) : r.cornerPos 2 = ⟨r.lower.x, r.upper.y⟩ := by
  unfold Region2.cornerPos
  ext <;> norm_num

theorem cornerPos3 (r : Region2) : r.cornerPos 3 = r.upper := by
  unfold Region2.cornerPos
  rw [show ((3 : Fin 4) : ℕ) = 3 from rfl]
  ext <;> norm_num

theorem massAccum_nil (e : Evaluator) (r : Region2) (cs : Fin 4 → Bool)
    (acc : V2 × ℝ) : massAccum e r cs [] acc = some acc := rfl

theorem massAccum_cons_eq (e : Evaluator) (r : Region2) (cs : Fin 4 → Bool)
    (ed : Fin 4 × Fin 4) (rest : List (Fin 4 × Fin 4)) (acc m : V2 × ℝ)
    (heq : cs ed.1 = cs ed.2)
    (hrest : massAccum e r cs rest acc = some m) :
    massAccum e r cs (ed :: rest) acc = some m := by
  rw [massAccum, if_pos heq]
  exact hrest

theorem massAccum_cons_ne (e : Evaluator) (r : Region2) (cs : Fin 4 → Bool)
    (ed : Fin 4 × Fin 4) (rest : List (Fin 4 × Fin 4)) (acc : V2 × ℝ)
    (A B : V2) (m : V2 × ℝ)
    (hne : ¬ cs ed.1 = cs ed.2)
    (hin : (if cs ed.1 then r.cornerPos ed.1 else r.cornerPos ed.2) = A)
    (hout : (if cs ed.1 then r.cornerPos ed.2 else r.cornerPos ed.1) = B)
    (hA : e.val (r.lift A) < 0) (hB : 0 ≤ e.val (r.lift B))
    (hrest : massAccum e r cs rest (acc.1.add A, acc.2 + 1) = some m) :
    massAccum e r cs (ed :: rest) acc = some m := by
  rw [massAccum, if_neg hne, hin, hout, searchIter_id e r A B hA hB 4]
  exact hrest

/-! ## QEF row evaluation helpers -/

theorem qefRow_xhat (pos : V2) (hx : pos.x = 0) :
    qefRow pos ⟨0, some 1, some 0, some 0⟩ = (⟨1, 0⟩, 0) := by
  have hn : Real.sqrt ((1 : ℝ) ^ 2 + (0 : ℝ) ^ 2 + (0 : ℝ) ^ 2) = 1 := by
    rw [show (1 : ℝ) ^ 2 + (0 : ℝ) ^ 2 + (0 : ℝ) ^ 2 = 1 by norm_num, Real.sqrt_one]
  show ((⟨1 / Real.sqrt ((1 : ℝ) ^ 2 + (0 : ℝ) ^ 2 + (0 : ℝ) ^ 2),
         0 / Real.sqrt ((1 : ℝ) ^ 2 + (0 : ℝ) ^ 2 + (0 : ℝ) ^ 2)⟩ : V2),
        1 / Real.sqrt ((1 : ℝ) ^ 2 + (0 : ℝ) ^ 2 + (0 : ℝ) ^ 2) * pos.x +
          0 / Real.sqrt ((1 : ℝ) ^ 2 + (0 : ℝ) ^ 2 + (0 : ℝ) ^ 2) * pos.y - 0)
      = ((⟨1, 0⟩ : V2), (0 : ℝ))
  rw [hn, hx]
  norm_num

theorem qefRow_yhat (pos : V2) :
    qefRow pos ⟨pos.y, some 0, some 1, some 0⟩ = (⟨0, 1⟩, 0) := by
  have hn : Real.sqrt ((0 : ℝ) ^ 2 + (1 : ℝ) ^ 2 + (0 : ℝ) ^ 2) = 1 := by
    rw [show (0 : ℝ) ^ 2 + (1 : ℝ) ^ 2 + (0 : ℝ) ^ 2 = 1 by norm_num, Real.sqrt_one]
  show ((⟨0 / Real.sqrt ((0 : ℝ) ^ 2 + (1 : ℝ) ^ 2 + (0 : ℝ) ^ 2),
         1 / Real.sqrt ((0 : ℝ) ^ 2 + (1 : ℝ) ^ 2 + (0 : ℝ) ^ 2)⟩ : V2),
        0 / Real.sqrt ((0 : ℝ) ^ 2 + (1 : ℝ) ^ 2 + (0 : ℝ) ^ 2) * pos.x +
          1 / Real.sqrt ((0 : ℝ) ^ 2 + (1 : ℝ) ^ 2 + (0 : ℝ) ^ 2) * pos.y - pos.y)
      = ((⟨0, 1⟩ : V2), (0 : ℝ))
  rw [hn]
  norm_num

theorem qefSample_nan (e : Evaluator) (r : Region2) (i : ℕ)
    (h : e.deriv (r.lift (gridPos r i)) = ⟨0, none, none, none⟩) :
    qefSample e r i = (⟨0, 0⟩, -0) := by
  unfold qefSample
  rw [h]
  exact qefRow_nan _ _ (Or.inl rfl)

theorem qefSample_xhat (e : Evaluator) (r : Region2) (i : ℕ)
    (hx : (gridPos r i).x = 0)
    (h : e.deriv (r.lift (gridPos r i)) = ⟨0, some 1, some 0, some 0⟩) :
    qefSample e r i = (⟨1, 0⟩, 0) := by
  unfold qefSample
  rw [h]
  exact qefRow_xhat _ hx

theorem qefSample_yhat (e : Evaluator) (r : Region2) (i : ℕ)
    (h : e.deriv (r.lift (gridPos r i)) = ⟨(gridPos r i).y, some 0, some 1, some 0⟩) :
    qefSample e r i = (⟨0, 1⟩, 0) := by
  unfold qefSample
  rw [h]
  exact qefRow_yhat _

/-! ## Evaluating the `evC` scenario -/

theorem valC_in (p : V3) (h : (p.x = 0 ∨ p.x = 1 / 500) ∧ p.y = 0) :
    evC.val p = -1 := by
  simp only [evC, if_pos h]

theorem valC_out (p : V3) (h : ¬ ((p.x = 0 ∨ p.x = 1 / 500) ∧ p.y = 0)) :
    evC.val p = 1 := by
  simp only [evC, if_neg h]

theorem derivC_x0 (p : V3) (h : p.x = 0) :
    evC.deriv p = ⟨0, some 1, some 0, some 0⟩ := by
  simp only [evC, if_pos h]

theorem derivC_x500 (p : V3) (h : p.x = 1 / 500) :
    evC.deriv p = ⟨p.y, some 0, some 1, some 0⟩ := by
  have h0 : ¬ p.x = 0 := by rw [h]; norm_num
  simp only [evC, if_neg h0, if_pos h]

theorem derivC_nan (p : V3) (h0 : ¬ p.x = 0) (h5 : ¬ p.x = 1 / 500) :
    evC.deriv p = ⟨0, none, none, none⟩ := by
  simp only [evC, if_neg h0, if_neg h5]

theorem gridX_c0 (i : ℕ) (h : i % 4 = 0) : (gridPos c0r i).x = 0 := by
  unfold gridPos gridAxis c0r
  rw [h]
  norm_num

theorem gridX_c0_ne (i : ℕ) (h : ¬ i % 4 = 0) :
    ¬ (gridPos c0r i).x = 0 ∧ ¬ (gridPos c0r i).x = 1 / 500 := by
  have h123 : i % 4 = 1 ∨ i % 4 = 2 ∨ i % 4 = 3 := by omega
  unfold gridPos gridAxis c0r
  rcases h123 with h1 | h1 | h1 <;> rw [h1] <;> norm_num

theorem gridX_c1 (i : ℕ) (h : i % 4 = 3) : (gridPos c1r i).x = 1 / 500 := by
  unfold gridPos gridAxis c1r
  rw [h]
  norm_num

theorem gridX_c1_ne (i : ℕ) (hlt : i % 4 < 3) :
    ¬ (gridPos c1r i).x = 0 ∧ ¬ (gridPos c1r i).x = 1 / 500 := by
  have h012 : i % 4 = 0 ∨ i % 4 = 1 ∨ i % 4 = 2 := by omega
  unfold gridPos gridAxis c1r
  rcases h012 with h1 | h1 | h1 <;> rw [h1] <;> norm_num

theorem qefSample_c0 (i : ℕ) :
    qefSample evC c0r i
      = if i % 4 = 0 then ((⟨1, 0⟩ : V2), (0 : ℝ)) else ((⟨0, 0⟩ : V2), -(0 : ℝ)) := by
  by_cases h4 : i % 4 = 0
  · rw [if_pos h4]
    exact qefSample_xhat _ _ _ (gridX_c0 i h4) (derivC_x0 _ (gridX_c0 i h4))
  · rw [if_neg h4]
    obtain ⟨hne0, hne5⟩ := gridX_c0_ne i h4
    exact qefSample_nan _ _ _ (derivC_nan _ hne0 hne5)

theorem qefSample_c1 (i : ℕ) (_hi : i < 16) :
    qefSample evC c1r i
      = if i % 4 = 3 then ((⟨0, 1⟩ : V2), (0 : ℝ)) else ((⟨0, 0⟩ : V2), -(0 : ℝ)) := by
  by_cases h4 : i % 4 = 3
  · rw [if_pos h4]
    exact qefSample_yhat _ _ _ (derivC_x500 _ (gridX_c1 i h4))
  · rw [if_neg h4]
    have hlt : i % 4 < 3 := by omega
    obtain ⟨hne0, hne5⟩ := gridX_c1_ne i hlt
    exact qefSample_nan _ _ _ (derivC_nan _ hne0 hne5)

theorem leafQEF_c0 : leafQEF evC c0r = (⟨4, 0, 0⟩, ⟨0, 0⟩, 0) := by
  unfold leafQEF
  simp only [Finset.sum_range_succ, Finset.sum_range_zero, qefSample_c0]
  norm_num

theorem leafQEF_c1 : leafQEF evC c1r = (⟨0, 0, 4⟩, ⟨0, 0⟩, 0) := by
  unfold leafQEF
  simp only [Finset.sum_range_succ, Finset.sum_range_zero]
  rw [qefSample_c1 0 (by norm_num), qefSample_c1 1 (by norm_num),
    qefSample_c1 2 (by norm_num), qefSample_c1 3 (by norm_num),
    qefSample_c1 4 (by norm_num), qefSample_c1 5 (by norm_num),
    qefSample_c1 6 (by norm_num), qefSample_c1 7 (by norm_num),
    qefSample_c1 8 (by norm_num), qefSample_c1 9 (by norm_num),
    qefSample_c1 10 (by norm_num), qefSample_c1 11 (by norm_num),
    qefSample_c1 12 (by norm_num), qefSample_c1 13 (by norm_num),
    qefSample_c1 14 (by norm_num), qefSample_c1 15 (by norm_num)]
  norm_num

theorem edgeMass_c0 : edgeMass evC c0r cs1000 = some (⟨0, 0⟩, 2) := by
  unfold edgeMass edges2
  refine massAccum_cons_ne _ _ _ _ _ _ ⟨0, 0⟩ ⟨1 / 1000, 0⟩ _ (by decide)
    ?_ ?_ ?_ ?_ ?_
  · rw [if_pos (show cs1000 0 = true by decide), cornerPos0]
    rfl
  · rw [if_pos (show cs1000 0 = true by decide), cornerPos1]
    show (⟨(1 : ℝ) / 1000, (0 : ℝ)⟩ : V2) = _
    rfl
  · exact lt_of_eq_of_lt (valC_in _ (by norm_num [Region2.lift, c0r, c1r])) (by norm_num)
  · rw [valC_out _ (by norm_num [Region2.lift, c0r, c1r])]
    norm_num
  · refine massAccum_cons_eq _ _ _ _ _ _ _ (by decide) ?_
    refine massAccum_cons_ne _ _ _ _ _ _ ⟨0, 0⟩ ⟨0, 1 / 2⟩ _ (by decide)
      ?_ ?_ ?_ ?_ ?_
    · rw [if_pos (show cs1000 0 = true by decide), cornerPos0]
      rfl
    · rw [if_pos (show cs1000 0 = true by decide), cornerPos2]
      show (⟨(0 : ℝ), (1 : ℝ) / 2⟩ : V2) = _
      rfl
    · exact lt_of_eq_of_lt (valC_in _ (by norm_num [Region2.lift, c0r, c1r])) (by norm_num)
    · rw [valC_out _ (by norm_num [Region2.lift, c0r, c1r])]
      norm_num
    · refine massAccum_cons_eq _ _ _ _ _ _ _ (by decide) ?_
      rw [massAccum_nil]
      show _ = some ((⟨0, 0⟩ : V2), (2 : ℝ))
      norm_num [V2.add]

theorem edgeMass_c1 : edgeMass evC c1r cs0100 = some (⟨1 / 250, 0⟩, 2) := by
  unfold edgeMass edges2
  refine massAccum_cons_ne _ _ _ _ _ _ ⟨1 / 500, 0⟩ ⟨1 / 1000, 0⟩ _ (by decide)
    ?_ ?_ ?_ ?_ ?_
  · rw [if_neg (show ¬ cs0100 0 = true by decide), cornerPos1]
    show (⟨(1 : ℝ) / 500, (0 : ℝ)⟩ : V2) = _
    rfl
  · rw [if_neg (show ¬ cs0100 0 = true by decide), cornerPos0]
    show (⟨(1 : ℝ) / 1000, (0 : ℝ)⟩ : V2) = _
    rfl
  · exact lt_of_eq_of_lt (valC_in _ (by norm_num [Region2.lift, c0r, c1r])) (by norm_num)
  · rw [valC_out _ (by norm_num [Region2.lift, c0r, c1r])]
    norm_num
  · refine massAccum_cons_eq _ _ _ _ _ _ _ (by decide) ?_
    refine massAccum_cons_eq _ _ _ _ _ _ _ (by decide) ?_
    refine massAccum_cons_ne _ _ _ _ _ _ ⟨1 / 500, 0⟩ ⟨1 / 500, 1 / 2⟩ _ (by decide)
      ?_ ?_ ?_ ?_ ?_
    · rw [if_pos (show cs0100 1 = true by decide), cornerPos1]
      show (⟨(1 : ℝ) / 500, (0 : ℝ)⟩ : V2) = _
      rfl
    · rw [if_pos (show cs0100 1 = true by decide), cornerPos3]
      show (⟨(1 : ℝ) / 500, (1 : ℝ) / 2⟩ : V2) = _
      rfl
    · exact lt_of_eq_of_lt (valC_in _ (by norm_num [Region2.lift, c0r, c1r])) (by norm_num)
    · rw [valC_out _ (by norm_num [Region2.lift, c0r, c1r])]
      norm_num
    · rw [massAccum_nil]
      show _ = some ((⟨(1 : ℝ) / 250, (0 : ℝ)⟩ : V2), (2 : ℝ))
      norm_num [V2.add]

/-! ## Child node assembly under `evC` -/

theorem eigCount_40 : eigCount ⟨4, 0, 0⟩ EIGENVALUE_CUTOFF = 1 := by
  unfold eigCount
  rw [eigHi_diag, eigLo_diag]
  norm_num [EIGENVALUE_CUTOFF]

theorem eigCount_04 : eigCount ⟨0, 0, 4⟩ EIGENVALUE_CUTOFF = 1 := by
  unfold eigCount
  rw [eigHi_diag, eigLo_diag]
  norm_num [EIGENVALUE_CUTOFF]

theorem eigCount_44 : eigCount ⟨4, 0, 4⟩ EIGENVALUE_CUTOFF = 2 := by
  unfold eigCount
  rw [eigHi_diag, eigLo_diag]
  norm_num [EIGENVALUE_CUTOFF]

theorem findVertexV_qC0 : findVertexV qC0 = ⟨0, 0⟩ := by
  unfold findVertexV massPoint
  simp only [qC0]
  rw [pinv_diag]
  unfold pinvD EIGENVALUE_CUTOFF
  rw [if_neg (by norm_num), if_pos (by norm_num)]
  ext <;> norm_num [Sym2.app, V2.add, V2.sub]

theorem findVertexV_qC1 : findVertexV qC1 = ⟨1 / 500, 0⟩ := by
  unfold findVertexV massPoint
  simp only [qC1]
  rw [pinv_diag]
  unfold pinvD EIGENVALUE_CUTOFF
  rw [if_pos (by norm_num), if_neg (by norm_num)]
  ext <;> norm_num [Sym2.app, V2.add, V2.sub]

theorem ambLeaf_c0 : ambLeafData evC c0r cs1000 = some dC0 := by
  unfold ambLeafData
  rw [edgeMass_c0, Option.map_some']
  unfold ambLeafCore
  rw [if_pos (show cornersAreManifold cs1000 = true by decide)]
  show some (NodeData.mk c0r .AMBIGUOUS cs1000 0
      (eigCount (leafQEF evC c0r).1 EIGENVALUE_CUTOFF) true
      ⟨(leafQEF evC c0r).1, (leafQEF evC c0r).2.1, (leafQEF evC c0r).2.2, ⟨0, 0⟩, 2⟩
      (findVertexV ⟨(leafQEF evC c0r).1, (leafQEF evC c0r).2.1,
        (leafQEF evC c0r).2.2, ⟨0, 0⟩, 2⟩) false)
    = some dC0
  rw [leafQEF_c0]
  show some (NodeData.mk c0r .AMBIGUOUS cs1000 0
      (eigCount ⟨4, 0, 0⟩ EIGENVALUE_CUTOFF) true qC0 (findVertexV qC0) false)
    = some dC0
  rw [eigCount_40, findVertexV_qC0]
  rfl

theorem ambLeaf_c1 : ambLeafData evC c1r cs0100 = some dC1 := by
  unfold ambLeafData
  rw [edgeMass_c1, Option.map_some']
  unfold ambLeafCore
  rw [if_pos (show cornersAreManifold cs0100 = true by decide)]
  show some (NodeData.mk c1r .AMBIGUOUS cs0100 0
      (eigCount (leafQEF evC c1r).1 EIGENVALUE_CUTOFF) true
      ⟨(leafQEF evC c1r).1, (leafQEF evC c1r).2.1, (leafQEF evC c1r).2.2,
        ⟨1 / 250, 0⟩, 2⟩
      (findVertexV ⟨(leafQEF evC c1r).1, (leafQEF evC c1r).2.1,
        (leafQEF evC c1r).2.2, ⟨1 / 250, 0⟩, 2⟩) false)
    = some dC1
  rw [leafQEF_c1]
  show some (NodeData.mk c1r .AMBIGUOUS cs0100 0
      (eigCount ⟨0, 0, 4⟩ EIGENVALUE_CUTOFF) true qC1 (findVertexV qC1) false)
    = some dC1
  rw [eigCount_04, findVertexV_qC1]
  rfl

theorem corners_evC_c0 :
    (fun i => decide (evC.val (c0r.lift (c0r.cornerPos i)) < 0)) = cs1000 := by
  funext i
  fin_cases i
  · show decide (evC.val (c0r.lift (c0r.cornerPos 0)) < 0) = true
    rw [decide_eq_true_eq, cornerPos0, valC_in _ (by norm_num [Region2.lift, c0r])]
    norm_num
  · show decide (evC.val (c0r.lift (c0r.cornerPos 1)) < 0) = false
    rw [decide_eq_false_iff_not, cornerPos1,
      valC_out _ (by norm_num [Region2.lift, c0r])]
    norm_num
  · show decide (evC.val (c0r.lift (c0r.cornerPos 2)) < 0) = false
    rw [decide_eq_false_iff_not, cornerPos2,
      valC_out _ (by norm_num [Region2.lift, c0r])]
    norm_num
  · show decide (evC.val (c0r.lift (c0r.cornerPos 3)) < 0) = false
    rw [decide_eq_false_iff_not, cornerPos3,
      valC_out _ (by norm_num [Region2.lift, c0r])]
    norm_num

theorem corners_evC_c1 :
    (fun i => decide (evC.val (c1r.lift (c1r.cornerPos i)) < 0)) = cs0100 := by
  funext i
  fin_cases i
  · show decide (evC.val (c1r.lift (c1r.cornerPos 0)) < 0) = false
    rw [decide_eq_false_iff_not, cornerPos0,
      valC_out _ (by norm_num [Region2.lift, c1r])]
    norm_num
  · show decide (evC.val (c1r.lift (c1r.cornerPos 1)) < 0) = true
    rw [decide_eq_true_eq, cornerPos1, valC_in _ (by norm_num [Region2.lift, c1r])]
    norm_num
  · show decide (evC.val (c1r.lift (c1r.cornerPos 2)) < 0) = false
    rw [decide_eq_false_iff_not, cornerPos2,
      valC_out _ (by norm_num [Region2.lift, c1r])]
    norm_num
  · show decide (evC.val (c1r.lift (c1r.cornerPos 3)) < 0) = false
    rw [decide_eq_false_iff_not, cornerPos3,
      valC_out _ (by norm_num [Region2.lift, c1r])]
    norm_num

/-! ## Constructing the `evC` children -/

theorem finishNode_amb_leaf (e : Evaluator) (r : Region2) (cs : Fin 4 → Bool)
    (d : NodeData) (h : ambLeafData e r cs = some d) :
    finishNode e r .AMBIGUOUS cs none = some (.node d none) := by
  show (ambLeafData e r cs).map (fun dd => XTree.node dd none)
    = some (XTree.node d none)
  rw [h, Option.map_some']

theorem ival_evC_low (r : Region2) (h : r.lower.y = 0) :
    evC.ival r.lower3 r.upper3 = (-1, 1) := by
  unfold Region2.lower3
  norm_num [evC, h]

theorem construct_c0 :
    construct evC 1 c0r = some (XTree.node dC0 none, [Ev.push, Ev.pop]) := by
  rw [construct]
  rw [ival_evC_low c0r (by norm_num [c0r])]
  rw [if_neg (by norm_num [isFilled]), if_neg (by norm_num [isEmpty]),
    if_neg (by norm_num [Region2.volume, c0r])]
  show (finishNode evC c0r
      (aggTypeCorners (fun i => decide (evC.val (c0r.lift (c0r.cornerPos i)) < 0)))
      (fun i => decide (evC.val (c0r.lift (c0r.cornerPos i)) < 0)) none).map
      (fun t => (t, [Ev.push, Ev.pop]))
    = some (XTree.node dC0 none, [Ev.push, Ev.pop])
  rw [corners_evC_c0]
  rw [show aggTypeCorners cs1000 = .AMBIGUOUS by decide]
  rw [finishNode_amb_leaf evC c0r cs1000 dC0 ambLeaf_c0, Option.map_some']

theorem construct_c1 :
    construct evC 1 c1r = some (XTree.node dC1 none, [Ev.push, Ev.pop]) := by
  rw [construct]
  rw [ival_evC_low c1r (by norm_num [c1r])]
  rw [if_neg (by norm_num [isFilled]), if_neg (by norm_num [isEmpty]),
    if_neg (by norm_num [Region2.volume, c1r])]
  show (finishNode evC c1r
      (aggTypeCorners (fun i => decide (evC.val (c1r.lift (c1r.cornerPos i)) < 0)))
      (fun i => decide (evC.val (c1r.lift (c1r.cornerPos i)) < 0)) none).map
      (fun t => (t, [Ev.push, Ev.pop]))
    = some (XTree.node dC1 none, [Ev.push, Ev.pop])
  rw [corners_evC_c1]
  rw [show aggTypeCorners cs0100 = .AMBIGUOUS by decide]
  rw [finishNode_amb_leaf evC c1r cs0100 dC1 ambLeaf_c1, Option.map_some']

theorem construct_c2 :
    construct evC 1 c2r = some (XTree.node (dEmpty c2r) none, [Ev.push, Ev.pop]) := by
  rw [construct]
  rw [show evC.ival c2r.lower3 c2r.upper3 = (1, 2) by
    unfold Region2.lower3
    norm_num [evC, c2r]]
  rw [if_neg (by norm_num [isFilled]), if_pos (by norm_num [isEmpty])]
  rfl

theorem construct_c3 :
    construct evC 1 c3r = some (XTree.node (dEmpty c3r) none, [Ev.push, Ev.pop]) := by
  rw [construct]
  rw [show evC.ival c3r.lower3 c3r.upper3 = (1, 2) by
    unfold Region2.lower3
    norm_num [evC, c3r]]
  rw [if_neg (by norm_num [isFilled]), if_pos (by norm_num [isEmpty])]
  rfl

/-! ## Constructing the `evC` root -/

theorem subdiv0 : regC.subdiv 0 = c0r := by
  unfold Region2.subdiv regC c0r
  ext <;> norm_num

theorem subdiv1 : regC.subdiv 1 = c1r := by
  unfold Region2.subdiv regC c1r
  ext <;> norm_num

theorem subdiv2 : regC.subdiv 2 = c2r := by
  unfold Region2.subdiv regC c2r
  ext <;> norm_num

theorem subdiv3 : regC.subdiv 3 = c3r := by
  unfold Region2.subdiv regC c3r
  rw [show ((3 : Fin 4) : ℕ) = 3 from rfl]
  ext <;> norm_num

theorem mergeQEF_kidsC : mergeQEF kidsC 1 = qCP := by
  show mergeStep 1 (mergeStep 1 (mergeStep 1 (mergeStep 1 QEF.zero dC0) dC1)
    (dEmpty c2r)) (dEmpty c3r) = qCP
  unfold mergeStep dC0 dC1 dEmpty qC0 qC1 QEF.zero
  norm_num [Sym2.add, V2.add, Sym2.zero, qCP]

theorem vertex_qCP : findVertexV qCP = ⟨0, 0⟩ := by
  unfold findVertexV massPoint
  simp only [qCP]
  rw [pinv_diag]
  unfold pinvD EIGENVALUE_CUTOFF
  rw [if_neg (by norm_num)]
  ext <;> norm_num [Sym2.app, V2.add, V2.sub]

theorem err_qCP : qefError qCP ⟨0, 0⟩ < 1e-8 := by
  norm_num [qefError, qCP, V2.dot, Sym2.app]

theorem finishNode_parentC :
    finishNode evC regC .AMBIGUOUS csTT00 (some kidsC) = some (.node dCP none) := by
  have hall : allLeaves kidsC = true := rfl
  have hguard : (cornersAreManifold csTT00 && allManifold kidsC &&
      leafsAreManifold kidsC) = true := rfl
  simp only [finishNode, ite_true]
  rw [if_pos hall, if_pos hguard]
  rw [show max4 (fun i => (kidsC i).data.rank) = 1 from rfl]
  rw [show max4 (fun i => (kidsC i).data.level) = 0 from rfl]
  rw [mergeQEF_kidsC, vertex_qCP]
  rw [if_pos err_qCP]
  rfl

theorem construct_evC : construct evC 2 regC = some (XTree.node dCP none, trRoot) := by
  rw [construct]
  rw [ival_evC_low regC (by norm_num [regC])]
  rw [if_neg (by norm_num [isFilled]), if_neg (by norm_num [isEmpty]),
    if_pos (by norm_num [Region2.volume, regC])]
  rw [subdiv0, subdiv1, subdiv2, subdiv3]
  rw [construct_c0, construct_c1, construct_c2, construct_c3]
  show (finishNode evC regC (aggType (fun i => (kidsC i).data.type))
      (fun i => (kidsC i).data.corners i) (some kidsC)).map
      (fun t => (t, [Ev.push] ++ [Ev.push, Ev.pop] ++ [Ev.push, Ev.pop] ++
        [Ev.push, Ev.pop] ++ [Ev.push, Ev.pop] ++ [Ev.pop, Ev.pop]))
    = some (XTree.node dCP none, trRoot)
  have hcs : (fun i => (kidsC i).data.corners i) = csTT00 := by
    funext i
    fin_cases i <;> rfl
  rw [show aggType (fun i => (kidsC i).data.type) = .AMBIGUOUS from rfl, hcs,
    finishNode_parentC, Option.map_some']
  rfl

/-! ## Evaluating the `evA` scenario -/

theorem valA_in (p : V3) (h : (p.x = 0 ∨ p.x = 1 / 500) ∧ (p.y = 0 ∨ p.y = 1)) :
    evA.val p = -1 := by
  simp only [evA, if_pos h]

theorem valA_out (p : V3)
    (h : ¬ ((p.x = 0 ∨ p.x = 1 / 500) ∧ (p.y = 0 ∨ p.y = 1))) :
    evA.val p = 1 := by
  simp only [evA, if_neg h]

theorem leafQEF_evA (r : Region2) : leafQEF evA r = (⟨0, 0, 0⟩, ⟨0, 0⟩, 0) := by
  have hs : ∀ i, qefSample evA r i = ((⟨0, 0⟩ : V2), -(0 : ℝ)) :=
    fun i => qefSample_nan _ _ _ rfl
  unfold leafQEF
  simp only [hs]
  norm_num

theorem edgeMass_A0 : edgeMass evA c0r cs1000 = some (⟨0, 0⟩, 2) := by
  unfold edgeMass edges2
  refine massAccum_cons_ne _ _ _ _ _ _ ⟨0, 0⟩ ⟨1 / 1000, 0⟩ _ (by decide)
    ?_ ?_ ?_ ?_ ?_
  · rw [if_pos (show cs1000 0 = true by decide), cornerPos0]
    rfl
  · rw [if_pos (show cs1000 0 = true by decide), cornerPos1]
    show (⟨(1 : ℝ) / 1000, (0 : ℝ)⟩ : V2) = _
    rfl
  · exact lt_of_eq_of_lt (valA_in _ (by norm_num [Region2.lift, c0r])) (by norm_num)
  · rw [valA_out _ (by norm_num [Region2.lift, c0r])]
    norm_num
  · refine massAccum_cons_eq _ _ _ _ _ _ _ (by decide) ?_
    refine massAccum_cons_ne _ _ _ _ _ _ ⟨0, 0⟩ ⟨0, 1 / 2⟩ _ (by decide)
      ?_ ?_ ?_ ?_ ?_
    · rw [if_pos (show cs1000 0 = true by decide), cornerPos0]
      rfl
    · rw [if_pos (show cs1000 0 = true by decide), cornerPos2]
      show (⟨(0 : ℝ), (1 : ℝ) / 2⟩ : V2) = _
      rfl
    · exact lt_of_eq_of_lt (valA_in _ (by norm_num [Region2.lift, c0r])) (by norm_num)
    · rw [valA_out _ (by norm_num [Region2.lift, c0r])]
      norm_num
    · refine massAccum_cons_eq _ _ _ _ _ _ _ (by decide) ?_
      rw [massAccum_nil]
      show _ = some ((⟨0, 0⟩ : V2), (2 : ℝ))
      norm_num [V2.add]

theorem edgeMass_A1 : edgeMass evA c1r cs0100 = some (⟨1 / 250, 0⟩, 2) := by
  unfold edgeMass edges2
  refine massAccum_cons_ne _ _ _ _ _ _ ⟨1 / 500, 0⟩ ⟨1 / 1000, 0⟩ _ (by decide)
    ?_ ?_ ?_ ?_ ?_
  · rw [if_neg (show ¬ cs0100 0 = true by decide), cornerPos1]
    show (⟨(1 : ℝ) / 500, (0 : ℝ)⟩ : V2) = _
    rfl
  · rw [if_neg (show ¬ cs0100 0 = true by decide), cornerPos0]
    show (⟨(1 : ℝ) / 1000, (0 : ℝ)⟩ : V2) = _
    rfl
  · exact lt_of_eq_of_lt (valA_in _ (by norm_num [Region2.lift, c1r])) (by norm_num)
  · rw [valA_out _ (by norm_num [Region2.lift, c1r])]
    norm_num
  · refine massAccum_cons_eq _ _ _ _ _ _ _ (by decide) ?_
    refine massAccum_cons_eq _ _ _ _ _ _ _ (by decide) ?_
    refine massAccum_cons_ne _ _ _ _ _ _ ⟨1 / 500, 0⟩ ⟨1 / 500, 1 / 2⟩ _ (by decide)
      ?_ ?_ ?_ ?_ ?_
    · rw [if_pos (show cs0100 1 = true by decide), cornerPos1]
      show (⟨(1 : ℝ) / 500, (0 : ℝ)⟩ : V2) = _
      rfl
    · rw [if_pos (show cs0100 1 = true by decide), cornerPos3]
      show (⟨(1 : ℝ) / 500, (1 : ℝ) / 2⟩ : V2) = _
      rfl
    · exact lt_of_eq_of_lt (valA_in _ (by norm_num [Region2.lift, c1r])) (by norm_num)
    · rw [valA_out _ (by norm_num [Region2.lift, c1r])]
      norm_num
    · rw [massAccum_nil]
      show _ = some ((⟨(1 : ℝ) / 250, (0 : ℝ)⟩ : V2), (2 : ℝ))
      norm_num [V2.add]

theorem edgeMass_A2 : edgeMass evA c2r cs0010 = some (⟨0, 2⟩, 2) := by
  unfold edgeMass edges2
  refine massAccum_cons_eq _ _ _ _ _ _ _ (by decide) ?_
  refine massAccum_cons_ne _ _ _ _ _ _ ⟨0, 1⟩ ⟨1 / 1000, 1⟩ _ (by decide)
    ?_ ?_ ?_ ?_ ?_
  · rw [if_pos (show cs0010 2 = true by decide), cornerPos2]
    show (⟨(0 : ℝ), (1 : ℝ)⟩ : V2) = _
    rfl
  · rw [if_pos (show cs0010 2 = true by decide), cornerPos3]
    show (⟨(1 : ℝ) / 1000, (1 : ℝ)⟩ : V2) = _
    rfl
  · exact lt_of_eq_of_lt (valA_in _ (by norm_num [Region2.lift, c2r])) (by norm_num)
  · rw [valA_out _ (by norm_num [Region2.lift, c2r])]
    norm_num
  · refine massAccum_cons_ne _ _ _ _ _ _ ⟨0, 1⟩ ⟨0, 1 / 2⟩ _ (by decide)
      ?_ ?_ ?_ ?_ ?_
    · rw [if_neg (show ¬ cs0010 0 = true by decide), cornerPos2]
      show (⟨(0 : ℝ), (1 : ℝ)⟩ : V2) = _
      rfl
    · rw [if_neg (show ¬ cs0010 0 = true by decide), cornerPos0]
      show (⟨(0 : ℝ), (1 : ℝ) / 2⟩ : V2) = _
      rfl
    · exact lt_of_eq_of_lt (valA_in _ (by norm_num [Region2.lift, c2r])) (by norm_num)
    · rw [valA_out _ (by norm_num [Region2.lift, c2r])]
      norm_num
    · refine massAccum_cons_eq _ _ _ _ _ _ _ (by decide) ?_
      rw [massAccum_nil]
      show _ = some ((⟨(0 : ℝ), (2 : ℝ)⟩ : V2), (2 : ℝ))
      norm_num [V2.add]

theorem edgeMass_A3 : edgeMass evA c3r cs0001 = some (⟨1 / 250, 2⟩, 2) := by
  unfold edgeMass edges2
  refine massAccum_cons_eq _ _ _ _ _ _ _ (by decide) ?_
  refine massAccum_cons_ne _ _ _ _ _ _ ⟨1 / 500, 1⟩ ⟨1 / 1000, 1⟩ _ (by decide)
    ?_ ?_ ?_ ?_ ?_
  · rw [if_neg (show ¬ cs0001 2 = true by decide), cornerPos3]
    show (⟨(1 : ℝ) / 500, (1 : ℝ)⟩ : V2) = _
    rfl
  · rw [if_neg (show ¬ cs0001 2 = true by decide), cornerPos2]
    show (⟨(1 : ℝ) / 1000, (1 : ℝ)⟩ : V2) = _
    rfl
  · exact lt_of_eq_of_lt (valA_in _ (by norm_num [Region2.lift, c3r])) (by norm_num)
  · rw [valA_out _ (by norm_num [Region2.lift, c3r])]
    norm_num
  · refine massAccum_cons_eq _ _ _ _ _ _ _ (by decide) ?_
    refine massAccum_cons_ne _ _ _ _ _ _ ⟨1 / 500, 1⟩ ⟨1 / 500, 1 / 2⟩ _ (by decide)
      ?_ ?_ ?_ ?_ ?_
    · rw [if_neg (show ¬ cs0001 1 = true by decide), cornerPos3]
      show (⟨(1 : ℝ) / 500, (1 : ℝ)⟩ : V2) = _
      rfl
    · rw [if_neg (show ¬ cs0001 1 = true by decide), cornerPos1]
      show (⟨(1 : ℝ) / 500, (1 : ℝ) / 2⟩ : V2) = _
      rfl
    · exact lt_of_eq_of_lt (valA_in _ (by norm_num [Region2.lift, c3r])) (by norm_num)
    · rw [valA_out _ (by norm_num [Region2.lift, c3r])]
      norm_num
    · rw [massAccum_nil]
      show _ = some ((⟨(1 : ℝ) / 250, (2 : ℝ)⟩ : V2), (2 : ℝ))
      norm_num [V2.add]

/-! ## Child node assembly under `evA` -/

theorem ambLeaf_evA (r : Region2) (cs : Fin 4 → Bool) (mp : V2 × ℝ)
    (hmf : cornersAreManifold cs = true)
    (hem : edgeMass evA r cs = some mp) :
    ambLeafData evA r cs = some ⟨r, .AMBIGUOUS, cs, 0, 0, true,
      ⟨Sym2.zero, ⟨0, 0⟩, 0, mp.1, mp.2⟩,
      massPoint ⟨Sym2.zero, ⟨0, 0⟩, 0, mp.1, mp.2⟩, false⟩ := by
  unfold ambLeafData
  rw [hem, Option.map_some']
  unfold ambLeafCore
  rw [if_pos hmf]
  show some (NodeData.mk r .AMBIGUOUS cs 0
      (eigCount (leafQEF evA r).1 EIGENVALUE_CUTOFF) true
      ⟨(leafQEF evA r).1, (leafQEF evA r).2.1, (leafQEF evA r).2.2, mp.1, mp.2⟩
      (findVertexV ⟨(leafQEF evA r).1, (leafQEF evA r).2.1, (leafQEF evA r).2.2,
        mp.1, mp.2⟩) false) = _
  rw [leafQEF_evA]
  show some (NodeData.mk r .AMBIGUOUS cs 0
      (eigCount Sym2.zero EIGENVALUE_CUTOFF) true
      ⟨Sym2.zero, ⟨0, 0⟩, 0, mp.1, mp.2⟩
      (findVertexV ⟨Sym2.zero, ⟨0, 0⟩, 0, mp.1, mp.2⟩) false) = _
  rw [eigCount_zeroM EIGENVALUE_CUTOFF (by norm_num [EIGENVALUE_CUTOFF]),
    findVertexV_zeroAtA _ rfl]

theorem ambLeaf_A0 : ambLeafData evA c0r cs1000 = some dA0 := by
  rw [ambLeaf_evA c0r cs1000 (⟨0, 0⟩, 2) (by decide) edgeMass_A0]
  show some (NodeData.mk c0r .AMBIGUOUS cs1000 0 0 true qA0 (massPoint qA0) false)
    = some dA0
  rw [show massPoint qA0 = (⟨0, 0⟩ : V2) by unfold massPoint qA0; ext <;> norm_num]
  rfl

theorem ambLeaf_A1 : ambLeafData evA c1r cs0100 = some dA1 := by
  rw [ambLeaf_evA c1r cs0100 (⟨1 / 250, 0⟩, 2) (by decide) edgeMass_A1]
  show some (NodeData.mk c1r .AMBIGUOUS cs0100 0 0 true qA1 (massPoint qA1) false)
    = some dA1
  rw [show massPoint qA1 = (⟨1 / 500, 0⟩ : V2) by
    unfold massPoint qA1
    ext <;> norm_num]
  rfl

theorem ambLeaf_A2 : ambLeafData evA c2r cs0010 = some dA2 := by
  rw [ambLeaf_evA c2r cs0010 (⟨0, 2⟩, 2) (by decide) edgeMass_A2]
  show some (NodeData.mk c2r .AMBIGUOUS cs0010 0 0 true qA2 (massPoint qA2) false)
    = some dA2
  rw [show massPoint qA2 = (⟨0, 1⟩ : V2) by unfold massPoint qA2; ext <;> norm_num]
  rfl

theorem ambLeaf_A3 : ambLeafData evA c3r cs0001 = some dA3 := by
  rw [ambLeaf_evA c3r cs0001 (⟨1 / 250, 2⟩, 2) (by decide) edgeMass_A3]
  show some (NodeData.mk c3r .AMBIGUOUS cs0001 0 0 true qA3 (massPoint qA3) false)
    = some dA3
  rw [show massPoint qA3 = (⟨1 / 500, 1⟩ : V2) by
    unfold massPoint qA3
    ext <;> norm_num]
  rfl

theorem corners_evA_c0 :
    (fun i => decide (evA.val (c0r.lift (c0r.cornerPos i)) < 0)) = cs1000 := by
  funext i
  fin_cases i
  · show decide (evA.val (c0r.lift (c0r.cornerPos 0)) < 0) = true
    rw [decide_eq_true_eq, cornerPos0, valA_in _ (by norm_num [Region2.lift, c0r])]
    norm_num
  · show decide (evA.val (c0r.lift (c0r.cornerPos 1)) < 0) = false
    rw [decide_eq_false_iff_not, cornerPos1,
      valA_out _ (by norm_num [Region2.lift, c0r])]
    norm_num
  · show decide (evA.val (c0r.lift (c0r.cornerPos 2)) < 0) = false
    rw [decide_eq_false_iff_not, cornerPos2,
      valA_out _ (by norm_num [Region2.lift, c0r])]
    norm_num
  · show decide (evA.val (c0r.lift (c0r.cornerPos 3)) < 0) = false
    rw [decide_eq_false_iff_not, cornerPos3,
      valA_out _ (by norm_num [Region2.lift, c0r])]
    norm_num

theorem corners_evA_c1 :
    (fun i => decide (evA.val (c1r.lift (c1r.cornerPos i)) < 0)) = cs0100 := by
  funext i
  fin_cases i
  · show decide (evA.val (c1r.lift (c1r.cornerPos 0)) < 0) = false
    rw [decide_eq_false_iff_not, cornerPos0,
      valA_out _ (by norm_num [Region2.lift, c1r])]
    norm_num
  · show decide (evA.val (c1r.lift (c1r.cornerPos 1)) < 0) = true
    rw [decide_eq_true_eq, cornerPos1, valA_in _ (by norm_num [Region2.lift, c1r])]
    norm_num
  · show decide (evA.val (c1r.lift (c1r.cornerPos 2)) < 0) = false
    rw [decide_eq_false_iff_not, cornerPos2,
      valA_out _ (by norm_num [Region2.lift, c1r])]
    norm_num
  · show decide (evA.val (c1r.lift (c1r.cornerPos 3)) < 0) = false
    rw [decide_eq_false_iff_not, cornerPos3,
      valA_out _ (by norm_num [Region2.lift, c1r])]
    norm_num

theorem corners_evA_c2 :
    (fun i => decide (evA.val (c2r.lift (c2r.cornerPos i)) < 0)) = cs0010 := by
  funext i
  fin_cases i
  · show decide (evA.val (c2r.lift (c2r.cornerPos 0)) < 0) = false
    rw [decide_eq_false_iff_not, cornerPos0,
      valA_out _ (by norm_num [Region2.lift, c2r])]
    norm_num
  · show decide (evA.val (c2r.lift (c2r.cornerPos 1)) < 0) = false
    rw [decide_eq_false_iff_not, cornerPos1,
      valA_out _ (by norm_num [Region2.lift, c2r])]
    norm_num
  · show decide (evA.val (c2r.lift (c2r.cornerPos 2)) < 0) = true
    rw [decide_eq_true_eq, cornerPos2, valA_in _ (by norm_num [Region2.lift, c2r])]
    norm_num
  · show decide (evA.val (c2r.lift (c2r.cornerPos 3)) < 0) = false
    rw [decide_eq_false_iff_not, cornerPos3,
      valA_out _ (by norm_num [Region2.lift, c2r])]
    norm_num

theorem corners_evA_c3 :
    (fun i => decide (evA.val (c3r.lift (c3r.cornerPos i)) < 0)) = cs0001 := by
  funext i
  fin_cases i
  · show decide (evA.val (c3r.lift (c3r.cornerPos 0)) < 0) = false
    rw [decide_eq_false_iff_not, cornerPos0,
      valA_out _ (by norm_num [Region2.lift, c3r])]
    norm_num
  · show decide (evA.val (c3r.lift (c3r.cornerPos 1)) < 0) = false
    rw [decide_eq_false_iff_not, cornerPos1,
      valA_out _ (by norm_num [Region2.lift, c3r])]
    norm_num
  · show decide (evA.val (c3r.lift (c3r.cornerPos 2)) < 0) = false
    rw [decide_eq_false_iff_not, cornerPos2,
      valA_out _ (by norm_num [Region2.lift, c3r])]
    norm_num
  · show decide (evA.val (c3r.lift (c3r.cornerPos 3)) < 0) = true
    rw [decide_eq_true_eq, cornerPos3, valA_in _ (by norm_num [Region2.lift, c3r])]
    norm_num

/-! ## Constructing the `evA` root -/

theorem construct_A0 :
    construct evA 1 c0r = some (XTree.node dA0 none, [Ev.push, Ev.pop]) := by
  rw [construct]
  rw [show evA.ival c0r.lower3 c0r.upper3 = (-1, 1) from rfl]
  rw [if_neg (by norm_num [isFilled]), if_neg (by norm_num [isEmpty]),
    if_neg (by norm_num [Region2.volume, c0r])]
  show (finishNode evA c0r
      (aggTypeCorners (fun i => decide (evA.val (c0r.lift (c0r.cornerPos i)) < 0)))
      (fun i => decide (evA.val (c0r.lift (c0r.cornerPos i)) < 0)) none).map
      (fun t => (t, [Ev.push, Ev.pop]))
    = some (XTree.node dA0 none, [Ev.push, Ev.pop])
  rw [corners_evA_c0]
  rw [show aggTypeCorners cs1000 = .AMBIGUOUS by decide]
  rw [finishNode_amb_leaf evA c0r cs1000 dA0 ambLeaf_A0, Option.map_some']

theorem construct_A1 :
    construct evA 1 c1r = some (XTree.node dA1 none, [Ev.push, Ev.pop]) := by
  rw [construct]
  rw [show evA.ival c1r.lower3 c1r.upper3 = (-1, 1) from rfl]
  rw [if_neg (by norm_num [isFilled]), if_neg (by norm_num [isEmpty]),
    if_neg (by norm_num [Region2.volume, c1r])]
  show (finishNode evA c1r
      (aggTypeCorners (fun i => decide (evA.val (c1r.lift (c1r.cornerPos i)) < 0)))
      (fun i => decide (evA.val (c1r.lift (c1r.cornerPos i)) < 0)) none).map
      (fun t => (t, [Ev.push, Ev.pop]))
    = some (XTree.node dA1 none, [Ev.push, Ev.pop])
  rw [corners_evA_c1]
  rw [show aggTypeCorners cs0100 = .AMBIGUOUS by decide]
  rw [finishNode_amb_leaf evA c1r cs0100 dA1 ambLeaf_A1, Option.map_some']

theorem construct_A2 :
    construct evA 1 c2r = some (XTree.node dA2 none, [Ev.push, Ev.pop]) := by
  rw [construct]
  rw [show evA.ival c2r.lower3 c2r.upper3 = (-1, 1) from rfl]
  rw [if_neg (by norm_num [isFilled]), if_neg (by norm_num [isEmpty]),
    if_neg (by norm_num [Region2.volume, c2r])]
  show (finishNode evA c2r
      (aggTypeCorners (fun i => decide (evA.val (c2r.lift (c2r.cornerPos i)) < 0)))
      (fun i => decide (evA.val (c2r.lift (c2r.cornerPos i)) < 0)) none).map
      (fun t => (t, [Ev.push, Ev.pop]))
    = some (XTree.node dA2 none, [Ev.push, Ev.pop])
  rw [corners_evA_c2]
  rw [show aggTypeCorners cs0010 = .AMBIGUOUS by decide]
  rw [finishNode_amb_leaf evA c2r cs0010 dA2 ambLeaf_A2, Option.map_some']

theorem construct_A3 :
    construct evA 1 c3r = some (XTree.node dA3 none, [Ev.push, Ev.pop]) := by
  rw [construct]
  rw [show evA.ival c3r.lower3 c3r.upper3 = (-1, 1) from rfl]
  rw [if_neg (by norm_num [isFilled]), if_neg (by norm_num [isEmpty]),
    if_neg (by norm_num [Region2.volume, c3r])]
  show (finishNode evA c3r
      (aggTypeCorners (fun i => decide (evA.val (c3r.lift (c3r.cornerPos i)) < 0)))
      (fun i => decide (evA.val (c3r.lift (c3r.cornerPos i)) < 0)) none).map
      (fun t => (t, [Ev.push, Ev.pop]))
    = some (XTree.node dA3 none, [Ev.push, Ev.pop])
  rw [corners_evA_c3]
  rw [show aggTypeCorners cs0001 = .AMBIGUOUS by decide]
  rw [finishNode_amb_leaf evA c3r cs0001 dA3 ambLeaf_A3, Option.map_some']

theorem mergeQEF_kidsA : mergeQEF kidsA 0 = qAP := by
  show mergeStep 0 (mergeStep 0 (mergeStep 0 (mergeStep 0 QEF.zero dA0) dA1) dA2)
    dA3 = qAP
  unfold mergeStep dA0 dA1 dA2 dA3 qA0 qA1 qA2 qA3 QEF.zero
  norm_num [Sym2.add, V2.add, Sym2.zero, qAP]

theorem vertex_qAP : findVertexV qAP = ⟨1 / 1000, 1 / 2⟩ := by
  rw [findVertexV_zeroAtA qAP rfl]
  unfold massPoint qAP
  ext <;> norm_num

theorem err_qAP : qefError qAP ⟨1 / 1000, 1 / 2⟩ < 1e-8 := by
  norm_num [qefError, qAP, V2.dot, Sym2.app, Sym2.zero]

theorem finishNode_parentA :
    finishNode evA regC .AMBIGUOUS (fun _ => true) (some kidsA)
      = some (.node dAP none) := by
  have hall : allLeaves kidsA = true := rfl
  have hguard : (cornersAreManifold (fun _ => true) && allManifold kidsA &&
      leafsAreManifold kidsA) = true := rfl
  simp only [finishNode, ite_true]
  rw [if_pos hall, if_pos hguard]
  rw [show max4 (fun i => (kidsA i).data.rank) = 0 from rfl]
  rw [show max4 (fun i => (kidsA i).data.level) = 0 from rfl]
  rw [mergeQEF_kidsA, vertex_qAP]
  rw [if_pos err_qAP]
  rfl

theorem construct_evA : construct evA 2 regC = some (XTree.node dAP none, trRoot) := by
  rw [construct]
  rw [show evA.ival regC.lower3 regC.upper3 = (-1, 1) from rfl]
  rw [if_neg (by norm_num [isFilled]), if_neg (by norm_num [isEmpty]),
    if_pos (by norm_num [Region2.volume, regC])]
  rw [subdiv0, subdiv1, subdiv2, subdiv3]
  rw [construct_A0, construct_A1, construct_A2, construct_A3]
  show (finishNode evA regC (aggType (fun i => (kidsA i).data.type))
      (fun i => (kidsA i).data.corners i) (some kidsA)).map
      (fun t => (t, [Ev.push] ++ [Ev.push, Ev.pop] ++ [Ev.push, Ev.pop] ++
        [Ev.push, Ev.pop] ++ [Ev.push, Ev.pop] ++ [Ev.pop, Ev.pop]))
    = some (XTree.node dAP none, trRoot)
  have hcs : (fun i => (kidsA i).data.corners i) = (fun _ => true) := by
    funext i
    fin_cases i <;> rfl
  rw [show aggType (fun i => (kidsA i).data.type) = .AMBIGUOUS from rfl, hcs,
    finishNode_parentA, Option.map_some']
  rfl

/-! ## Claim theorems (part 2: settled on the constructed scenario trees) -/

/-- C1: the push/pop trace of a single subdividing construction is not
balanced: the root issues one `push` (line 23) but two `pop`s (lines 53 and
78), so the whole tree's trace has 5 pushes and 6 pops. -/
theorem c1_push_pop_imbalance :
    (construct evC 2 regC).map
      (fun p => (p.2.count Ev.push, p.2.count Ev.pop)) = some (5, 6) ∧
    (6 : ℕ) = 5 + 1 := by
  rw [construct_evC, Option.map_some']
  exact ⟨rfl, rfl⟩

/-- C3 (counterexample): the `evA` root is an internal node (later collapsed)
whose four copied corners are all FILLED, yet its type is AMBIGUOUS because
its children were all AMBIGUOUS — corners alone do not determine the
aggregate type. -/
theorem c3_uniform_corners_counterexample :
    (construct evA 2 regC).map
      (fun p => (p.1.data.type, p.1.data.corners 0, p.1.data.corners 1,
        p.1.data.corners 2, p.1.data.corners 3))
      = some (CellType.AMBIGUOUS, true, true, true, true) ∧
    CellType.AMBIGUOUS ≠ CellType.FILLED := by
  rw [construct_evA, Option.map_some']
  exact ⟨rfl, by decide⟩

/-- C6 (counterexample): the `evC` root collapses into a leaf whose rank is
the maximum child rank 1, while its merged `AtA = diag(4,4)` has two
eigenvalues above the cutoff. -/
theorem c6_collapsed_rank_counterexample :
    (construct evC 2 regC).map
      (fun p => (p.1.isBranch, p.1.data.rank,
        eigCount p.1.data.q.AtA EIGENVALUE_CUTOFF)) = some (false, 1, 2) ∧
    (1 : ℕ) ≠ 2 := by
  rw [construct_evC, Option.map_some']
  refine ⟨?_, by norm_num⟩
  show some ((XTree.node dCP none).isBranch, (XTree.node dCP none).data.rank,
    eigCount (XTree.node dCP none).data.q.AtA EIGENVALUE_CUTOFF)
    = some (false, 1, 2)
  rw [show (XTree.node dCP none).data.q.AtA = (⟨4, 0, 4⟩ : Sym2) from rfl,
    eigCount_44]
  rfl

/-- C7 (counterexample): the `evC` root collapses into a leaf but keeps
`level = 1`, not 0. -/
theorem c7_collapsed_level_counterexample :
    (construct evC 2 regC).map (fun p => (p.1.isBranch, p.1.data.level))
      = some (false, 1) ∧ (1 : ℕ) ≠ 0 := by
  rw [construct_evC, Option.map_some']
  exact ⟨rfl, by norm_num⟩

/-- C7 (amended): for every constructed node, a branch has
`level = 1 + max child level`; a leaf that never subdivided has `level = 0`;
a leaf produced by collapse keeps the branch level, which is at least 1. -/
theorem c7_level_amended (e : Evaluator) (fuel : ℕ) (r : Region2) (t : XTree)
    (tr : List Ev) (h : construct e fuel r = some (t, tr)) :
    (∀ k, t.children = some k →
      t.data.collapsed = false ∧
      t.data.level = 1 + max4 (fun i => (k i).data.level)) ∧
    (t.children = none →
      (t.data.collapsed = false → t.data.level = 0) ∧
      (t.data.collapsed = true → 1 ≤ t.data.level)) := by
  cases fuel with
  | zero => exact Option.noConfusion h
  | succ n =>
    rw [construct] at h
    split_ifs at h with hF hE hV
    · rcases Option.map_eq_some'.mp h with ⟨t0, hf0, heq⟩
      injection heq with h1 h2
      subst h1
      obtain ⟨hc, hl, hcol⟩ := finishNode_leaf_fields _ _ _ _ _ hf0
      refine ⟨fun k hk => ?_, fun _ => ⟨fun _ => hl, fun hc1 => ?_⟩⟩
      · rw [hc] at hk
        exact Option.noConfusion hk
      · exact Bool.noConfusion (hcol.symm.trans hc1)
    · rcases Option.map_eq_some'.mp h with ⟨t0, hf0, heq⟩
      injection heq with h1 h2
      subst h1
      obtain ⟨hc, hl, hcol⟩ := finishNode_leaf_fields _ _ _ _ _ hf0
      refine ⟨fun k hk => ?_, fun _ => ⟨fun _ => hl, fun hc1 => ?_⟩⟩
      · rw [hc] at hk
        exact Option.noConfusion hk
      · exact Bool.noConfusion (hcol.symm.trans hc1)
    · rcases h0 : construct e n (r.subdiv 0) with _ | p0 <;>
        rcases h1 : construct e n (r.subdiv 1) with _ | p1 <;>
          rcases h2 : construct e n (r.subdiv 2) with _ | p2 <;>
            rcases h3 : construct e n (r.subdiv 3) with _ | p3 <;>
              rw [h0, h1, h2, h3] at h <;>
      first
      | exact Option.noConfusion h
      | · rcases Option.map_eq_some'.mp h with ⟨t0, hf0, heq⟩
          injection heq with he1 he2
          subst he1
          obtain ⟨hlv, hch⟩ := finishNode_branch_fields _ _ _ _ _ _ hf0
          constructor
          · intro k hk
            rcases hch with ⟨hsome, hcol⟩ | ⟨hnone, hcol⟩
            · rw [hsome] at hk
              injection hk with hk1
              subst hk1
              exact ⟨hcol, hlv⟩
            · rw [hnone] at hk
              exact Option.noConfusion hk
          · intro hnone
            rcases hch with ⟨hsome, hcol⟩ | ⟨hn, hcol⟩
            · rw [hsome] at hnone
              exact Option.noConfusion hnone
            · refine ⟨fun hc0 => Bool.noConfusion (hcol.symm.trans hc0),
                fun _ => ?_⟩
              rw [hlv]
              omega
    · rcases Option.map_eq_some'.mp h with ⟨t0, hf0, heq⟩
      injection heq with h1 h2
      subst h1
      obtain ⟨hc, hl, hcol⟩ := finishNode_leaf_fields _ _ _ _ _ hf0
      refine ⟨fun k hk => ?_, fun _ => ⟨fun _ => hl, fun hc1 => ?_⟩⟩
      · rw [hc] at hk
        exact Option.noConfusion hk
      · exact Bool.noConfusion (hcol.symm.trans hc1)

/-- Witness for `c7_level_amended` at the collapsed `evC` root. -/
theorem c7_level_amended_witness :
    construct evC 2 regC = some (XTree.node dCP none, trRoot) ∧
    ((∀ k, (XTree.node dCP none).children = some k →
      (XTree.node dCP none).data.collapsed = false ∧
      (XTree.node dCP none).data.level = 1 + max4 (fun i => (k i).data.level)) ∧
    ((XTree.node dCP none).children = none →
      ((XTree.node dCP none).data.collapsed = false →
        (XTree.node dCP none).data.level = 0) ∧
      ((XTree.node dCP none).data.collapsed = true →
        1 ≤ (XTree.node dCP none).data.level))) :=
  ⟨construct_evC,
   c7_level_amended evC 2 regC (XTree.node dCP none) trRoot construct_evC⟩

/-- Witness for `c6_leaf_rank_amended` at the `evC` child 0 leaf. -/
theorem c6_leaf_rank_amended_witness :
    ambLeafData evC c0r cs1000 = some dC0 ∧
    dC0.rank = eigCount dC0.q.AtA EIGENVALUE_CUTOFF :=
  ⟨ambLeaf_c0, c6_leaf_rank_amended evC c0r cs1000 dC0 ambLeaf_c0⟩

/-- Witness for `c8_collapse_merge` at the collapsing `evC` root. -/
theorem c8_collapse_merge_witness :
    allLeaves kidsC = true ∧
    (cornersAreManifold (if CellType.AMBIGUOUS = CellType.AMBIGUOUS then csTT00
        else fun _ => CellType.AMBIGUOUS = CellType.FILLED) && allManifold kidsC
      && leafsAreManifold kidsC) = true ∧
    finishNode evC regC .AMBIGUOUS csTT00 (some kidsC)
      = some (XTree.node dCP none) ∧
    ((XTree.node dCP none).data.rank = max4 (fun i => (kidsC i).data.rank) ∧
     (XTree.node dCP none).data.q.AtA.a = ∑ i : Fin 4, (kidsC i).data.q.AtA.a ∧
     (XTree.node dCP none).data.q.AtA.b = ∑ i : Fin 4, (kidsC i).data.q.AtA.b ∧
     (XTree.node dCP none).data.q.AtA.c = ∑ i : Fin 4, (kidsC i).data.q.AtA.c ∧
     (XTree.node dCP none).data.q.AtB.x = ∑ i : Fin 4, (kidsC i).data.q.AtB.x ∧
     (XTree.node dCP none).data.q.AtB.y = ∑ i : Fin 4, (kidsC i).data.q.AtB.y ∧
     (XTree.node dCP none).data.q.BtB = ∑ i : Fin 4, (kidsC i).data.q.BtB ∧
     (XTree.node dCP none).data.q.massHead.x
       = ∑ i ∈ Finset.univ.filter
           (fun i => (kidsC i).data.rank = max4 (fun j => (kidsC j).data.rank)),
           (kidsC i).data.q.massHead.x ∧
     (XTree.node dCP none).data.q.massHead.y
       = ∑ i ∈ Finset.univ.filter
           (fun i => (kidsC i).data.rank = max4 (fun j => (kidsC j).data.rank)),
           (kidsC i).data.q.massHead.y ∧
     (XTree.node dCP none).data.q.massW
       = ∑ i ∈ Finset.univ.filter
           (fun i => (kidsC i).data.rank = max4 (fun j => (kidsC j).data.rank)),
           (kidsC i).data.q.massW ∧
     ((XTree.node dCP none).children = none ↔
       qefError (mergeQEF kidsC (max4 (fun i => (kidsC i).data.rank)))
         (findVertexV (mergeQEF kidsC (max4 (fun i => (kidsC i).data.rank))))
         < 1e-8)) :=
  ⟨rfl, rfl, finishNode_parentC,
   c8_collapse_merge evC regC .AMBIGUOUS csTT00 kidsC (XTree.node dCP none)
     rfl rfl finishNode_parentC⟩

/-- Witness for `c10_amb_leaf_mass` at the `evC` child 0 leaf. -/
theorem c10_amb_leaf_mass_witness :
    (∃ i, cs1000 i = true) ∧ (∃ i, cs1000 i = false) ∧
    ambLeafData evC c0r cs1000 = some dC0 ∧
    (1 ≤ dC0.q.massW ∧ dC0.q.massW ≠ 0 ∧
      (dC0.manifold = false → dC0.vert = massPoint dC0.q)) :=
  ⟨⟨0, rfl⟩, ⟨1, rfl⟩, ambLeaf_c0,
   c10_amb_leaf_mass evC c0r cs1000 dC0 ⟨0, rfl⟩ ⟨1, rfl⟩ ambLeaf_c0⟩

end XT
